import Mathlib

/-!
Shallow embedding of the r5vm RISC-V RV32I virtual machine
(sources: src/src/r5vm.h, src/src/r5vm.c, src/src/main.c, src/src/r5jit_x86.c).

C `uint32_t` values are represented as `Nat` with explicit reduction
modulo 2^32 at every point where the C code truncates (assignment to a
`uint32_t` object, unsigned wraparound).  C `uint8_t` memory cells are
`Nat` entries read modulo 256 (the byte type enforces this in C).
The release build is modelled (no `R5VM_DEBUG`): the `#ifdef R5VM_DEBUG`
branches of `r5vm_step` are not compiled in and are therefore absent here.
`putchar`/`fflush` host output is modelled by a ghost `out` field
accumulating the bytes written to the host's stdout.
-/

/-- 2^32, the modulus of C `uint32_t` arithmetic. -/
def U32 : Nat := 4294967296

/-- Truncation to 32 bits, as performed when C stores into a `uint32_t`. -/
def u32 (x : Nat) : Nat := x % U32

/-- C `uint32_t` subtraction `a - b` (wraps modulo 2^32). -/
def sub32 (a b : Nat) : Nat := (a + (U32 - b % U32)) % U32

/-- Reinterpret a 32-bit value as C `int32_t` (two's complement). -/
def toInt32 (a : Nat) : Int :=
  if a % U32 < 2147483648 then ((a % U32 : Nat) : Int) else ((a % U32 : Nat) : Int) - (U32 : Int)

/-- C conversion of a signed value back to `uint32_t` (reduction mod 2^32). -/
def ofInt32 (i : Int) : Nat := (Int.emod i (U32 : Int)).toNat

/-- `SIGN_EXT32(x,bits)` from src/src/r5vm.h:215:
`((int32_t)((x) << (32 - (bits)))) >> (32 - (bits))`, with the arithmetic
right shift of the (possibly negative) `int32_t` expressed as floor
division by the corresponding power of two; the result is kept in its
32-bit two's-complement representation. -/
def SIGN_EXT32 (x bits : Nat) : Nat :=
  ofInt32 (Int.fdiv (toInt32 (u32 (x <<< (32 - bits)))) ((2 : Int) ^ (32 - bits)))

/-- `OPCODE` field macro (src/src/r5vm.h:218). -/
def OPCODE (inst : Nat) : Nat := inst &&& 0x7F

/-- `RD` field macro (src/src/r5vm.h:219). -/
def RD (inst : Nat) : Nat := (inst >>> 7) &&& 0x1F

/-- `FUNCT3` field macro (src/src/r5vm.h:220). -/
def FUNCT3 (inst : Nat) : Nat := (inst >>> 12) &&& 0x07

/-- `RS1` field macro (src/src/r5vm.h:221). -/
def RS1 (inst : Nat) : Nat := (inst >>> 15) &&& 0x1F

/-- `RS2` field macro (src/src/r5vm.h:222). -/
def RS2 (inst : Nat) : Nat := (inst >>> 20) &&& 0x1F

/-- `FUNCT7` field macro (src/src/r5vm.h:223). -/
def FUNCT7 (inst : Nat) : Nat := (inst >>> 25) &&& 0x7F

/-- `IMM_I` immediate macro (src/src/r5vm.h:225). -/
def IMM_I (inst : Nat) : Nat := SIGN_EXT32 ((inst >>> 20) &&& 0xFFF) 12

/-- `IMM_S` immediate macro (src/src/r5vm.h:226). -/
def IMM_S (inst : Nat) : Nat :=
  SIGN_EXT32 (((inst >>> 25) <<< 5) ||| ((inst >>> 7) &&& 0x1F)) 12

/-- `IMM_U` immediate macro (src/src/r5vm.h:228). -/
def IMM_U (inst : Nat) : Nat := inst &&& 0xFFFFF000

/-- `IMM_B` immediate macro (src/src/r5vm.h:229). -/
def IMM_B (inst : Nat) : Nat :=
  SIGN_EXT32 ((((inst >>> 31) &&& 0x1) <<< 12) ||| (((inst >>> 7) &&& 0x1) <<< 11) |||
              (((inst >>> 25) &&& 0x3F) <<< 5) ||| (((inst >>> 8) &&& 0xF) <<< 1)) 13

/-- `IMM_J` immediate macro (src/src/r5vm.h:233). -/
def IMM_J (inst : Nat) : Nat :=
  SIGN_EXT32 ((((inst >>> 31) &&& 0x1) <<< 20) ||| (((inst >>> 12) &&& 0xFF) <<< 12) |||
              (((inst >>> 20) &&& 0x1) <<< 11) ||| (((inst >>> 21) &&& 0x3FF) <<< 1)) 21

/-- The `r5vm_t` record (src/src/r5vm.h:118).  `regs` is the 32-entry
register file `x0..x31` (`a7` is `regs[17]`, `a0` is `regs[10]`); `mem`
is the sandbox byte array.  `out` is a ghost field accumulating the
bytes the VM writes to the host's stdout via `putchar`. -/
structure r5vm where
  regs : List Nat
  pc : Nat
  mem : List Nat
  mem_size : Nat
  mem_mask : Nat
  code_offset : Nat
  code_size : Nat
  data_offset : Nat
  data_size : Nat
  bss_offset : Nat
  bss_size : Nat
  entry : Nat
  out : List Nat
deriving Repr, DecidableEq

/-- Read general register `i` (C reads a `uint32_t` array element, hence
the reduction mod 2^32, which is an identity on well-formed states). -/
def getR (vm : r5vm) (i : Nat) : Nat := u32 (vm.regs.getD i 0)

/-- Write general register `rd` with a `uint32_t` value. -/
def setR (vm : r5vm) (rd v : Nat) : r5vm := { vm with regs := vm.regs.set rd (u32 v) }

/-- Read one sandbox byte (C reads a `uint8_t`, hence mod 256). -/
def mem8 (vm : r5vm) (a : Nat) : Nat := vm.mem.getD a 0 % 256

/-- Write one sandbox byte. -/
def setMem8 (vm : r5vm) (a v : Nat) : r5vm := { vm with mem := vm.mem.set a v }

/-- Instruction fetch of `r5vm_step` (src/src/r5vm.c:59): four
little-endian bytes at `pc`, each address masked individually. -/
def fetch32 (vm : r5vm) : Nat :=
  (mem8 vm (u32 (vm.pc + 0) &&& vm.mem_mask)) |||
  ((mem8 vm (u32 (vm.pc + 1) &&& vm.mem_mask)) <<< 8) |||
  ((mem8 vm (u32 (vm.pc + 2) &&& vm.mem_mask)) <<< 16) |||
  ((mem8 vm (u32 (vm.pc + 3) &&& vm.mem_mask)) <<< 24)

/-- `r5vm_reset` (src/src/r5vm.c:40): zero the register file, `pc = entry`. -/
def r5vm_reset (vm : r5vm) : r5vm :=
  { vm with regs := List.replicate 32 0, pc := vm.entry }

/-- Sign extension of a byte to `uint32_t` (the C cast chain
`(int8_t)b` assigned to `uint32_t R[rd]`). -/
def sx8 (b : Nat) : Nat := if b < 128 then b else b + (U32 - 256)

/-- Sign extension of a halfword to `uint32_t` (`(int16_t)h` assigned to
`uint32_t R[rd]`). -/
def sx16 (h : Nat) : Nat := if h < 32768 then h else h + (U32 - 65536)

/-- The decode/execute `switch` of `r5vm_step` (src/src/r5vm.c:75-261),
release build; `vm` has its `pc` already advanced past the instruction.
Returns the updated state and the C `retcode` (`true` = continue). -/
def r5vm_exec (vm : r5vm) (inst : Nat) : r5vm × Bool :=
  let rd := RD inst
  let rs1 := RS1 inst
  let rs2 := RS2 inst
  if OPCODE inst = 0x33 then
    -- R-type (src/src/r5vm.c:78)
    (if FUNCT3 inst = 0x00 then
      (if FUNCT7 inst = 0x20 then setR vm rd (sub32 (getR vm rs1) (getR vm rs2))
       else setR vm rd (getR vm rs1 + getR vm rs2), true)
    else if FUNCT3 inst = 0x04 then (setR vm rd ((getR vm rs1) ^^^ (getR vm rs2)), true)
    else if FUNCT3 inst = 0x06 then (setR vm rd ((getR vm rs1) ||| (getR vm rs2)), true)
    else if FUNCT3 inst = 0x07 then (setR vm rd ((getR vm rs1) &&& (getR vm rs2)), true)
    else if FUNCT3 inst = 0x01 then (setR vm rd ((getR vm rs1) <<< ((getR vm rs2) &&& 0x1F)), true)
    else if FUNCT3 inst = 0x05 then
      (if FUNCT7 inst = 0x20 then
        setR vm rd (ofInt32 (Int.fdiv (toInt32 (getR vm rs1)) ((2 : Int) ^ ((getR vm rs2) &&& 0x1F))))
       else setR vm rd ((getR vm rs1) >>> ((getR vm rs2) &&& 0x1F)), true)
    else if FUNCT3 inst = 0x02 then
      (setR vm rd (if toInt32 (getR vm rs1) < toInt32 (getR vm rs2) then 1 else 0), true)
    else if FUNCT3 inst = 0x03 then
      (setR vm rd (if getR vm rs1 < getR vm rs2 then 1 else 0), true)
    else (vm, true))
  else if OPCODE inst = 0x13 then
    -- I-type (src/src/r5vm.c:105)
    (if FUNCT3 inst = 0x00 then (setR vm rd (getR vm rs1 + IMM_I inst), true)
    else if FUNCT3 inst = 0x04 then (setR vm rd ((getR vm rs1) ^^^ (IMM_I inst)), true)
    else if FUNCT3 inst = 0x06 then (setR vm rd ((getR vm rs1) ||| (IMM_I inst)), true)
    else if FUNCT3 inst = 0x07 then (setR vm rd ((getR vm rs1) &&& (IMM_I inst)), true)
    else if FUNCT3 inst = 0x02 then
      (setR vm rd (if toInt32 (getR vm rs1) < toInt32 (IMM_I inst) then 1 else 0), true)
    else if FUNCT3 inst = 0x03 then
      (setR vm rd (if getR vm rs1 < IMM_I inst then 1 else 0), true)
    else if FUNCT3 inst = 0x01 then
      (if FUNCT7 inst = 0x00 then setR vm rd ((getR vm rs1) <<< ((IMM_I inst) &&& 0x1F)) else vm, true)
    else if FUNCT3 inst = 0x05 then
      (if FUNCT7 inst = 0x00 then setR vm rd ((getR vm rs1) >>> ((IMM_I inst) &&& 0x1F))
       else if FUNCT7 inst = 0x20 then
        setR vm rd (ofInt32 (Int.fdiv (toInt32 (getR vm rs1)) ((2 : Int) ^ ((IMM_I inst) &&& 0x1F))))
       else vm, true)
    else (vm, true))
  else if OPCODE inst = 0x17 then
    -- AUIPC (src/src/r5vm.c:131): R[rd] = vm->pc-4 + IMM_U (no masking)
    (setR vm rd (sub32 vm.pc 4 + IMM_U inst), true)
  else if OPCODE inst = 0x37 then
    -- LUI (src/src/r5vm.c:135)
    (setR vm rd (IMM_U inst), true)
  else if OPCODE inst = 0x03 then
    -- loads (src/src/r5vm.c:139): per-byte masked little-endian reads
    let addr := u32 (getR vm rs1 + IMM_I inst)
    let b0 := mem8 vm (u32 (addr + 0) &&& vm.mem_mask)
    let b1 := mem8 vm (u32 (addr + 1) &&& vm.mem_mask)
    let b2 := mem8 vm (u32 (addr + 2) &&& vm.mem_mask)
    let b3 := mem8 vm (u32 (addr + 3) &&& vm.mem_mask)
    (if FUNCT3 inst = 0x00 then (setR vm rd (sx8 b0), true)
    else if FUNCT3 inst = 0x01 then (setR vm rd (sx16 (b0 ||| (b1 <<< 8))), true)
    else if FUNCT3 inst = 0x02 then
      (setR vm rd (b0 ||| (b1 <<< 8) ||| (b2 <<< 16) ||| (b3 <<< 24)), true)
    else if FUNCT3 inst = 0x04 then (setR vm rd b0, true)
    else if FUNCT3 inst = 0x05 then (setR vm rd (b0 ||| (b1 <<< 8)), true)
    else (vm, true))
  else if OPCODE inst = 0x23 then
    -- stores (src/src/r5vm.c:170); the C switch falls through SW→SH→SB,
    -- so SW writes bytes 3,2,1,0, SH writes 1,0, SB writes 0, in that order
    let addr := u32 (getR vm rs1 + IMM_S inst)
    let v := getR vm rs2
    (if FUNCT3 inst = 0x02 then
      let vm := setMem8 vm (u32 (addr + 3) &&& vm.mem_mask) ((v >>> 24) &&& 0xFF)
      let vm := setMem8 vm (u32 (addr + 2) &&& vm.mem_mask) ((v >>> 16) &&& 0xFF)
      let vm := setMem8 vm (u32 (addr + 1) &&& vm.mem_mask) ((v >>> 8) &&& 0xFF)
      (setMem8 vm (u32 (addr + 0) &&& vm.mem_mask) (v &&& 0xFF), true)
    else if FUNCT3 inst = 0x01 then
      let vm := setMem8 vm (u32 (addr + 1) &&& vm.mem_mask) ((v >>> 8) &&& 0xFF)
      (setMem8 vm (u32 (addr + 0) &&& vm.mem_mask) (v &&& 0xFF), true)
    else if FUNCT3 inst = 0x00 then
      (setMem8 vm (u32 (addr + 0) &&& vm.mem_mask) (v &&& 0xFF), true)
    else (vm, true))
  else if OPCODE inst = 0x63 then
    -- branches (src/src/r5vm.c:200); target = (vm->pc-4 + IMM_B) & mask
    let target := u32 (sub32 vm.pc 4 + IMM_B inst) &&& vm.mem_mask
    (if FUNCT3 inst = 0x00 then
      (if getR vm rs1 = getR vm rs2 then { vm with pc := target } else vm, true)
    else if FUNCT3 inst = 0x01 then
      (if getR vm rs1 ≠ getR vm rs2 then { vm with pc := target } else vm, true)
    else if FUNCT3 inst = 0x06 then
      (if getR vm rs1 < getR vm rs2 then { vm with pc := target } else vm, true)
    else if FUNCT3 inst = 0x07 then
      (if getR vm rs1 ≥ getR vm rs2 then { vm with pc := target } else vm, true)
    else if FUNCT3 inst = 0x04 then
      (if toInt32 (getR vm rs1) < toInt32 (getR vm rs2) then { vm with pc := target } else vm, true)
    else if FUNCT3 inst = 0x05 then
      (if toInt32 (getR vm rs1) ≥ toInt32 (getR vm rs2) then { vm with pc := target } else vm, true)
    else (vm, true))
  else if OPCODE inst = 0x6F then
    -- JAL (src/src/r5vm.c:216): R[rd] = vm->pc; pc = (vm->pc + IMM_J - 4) & mask
    let vm := setR vm rd vm.pc
    ({ vm with pc := sub32 (u32 (vm.pc + IMM_J inst)) 4 &&& vm.mem_mask }, true)
  else if OPCODE inst = 0x67 then
    -- JALR (src/src/r5vm.c:221); note R[rd] is written before R[rs1] is read
    (if FUNCT3 inst = 0x00 then
      let vm := setR vm rd vm.pc
      ({ vm with pc := (u32 (getR vm rs1 + IMM_I inst) &&& (U32 - 2)) &&& vm.mem_mask }, true)
    else (vm, true))
  else if OPCODE inst = 0x73 then
    -- SYSTEM (src/src/r5vm.c:236): dispatch on the value of a7 (= regs[17])
    let syscall_id := getR vm 17
    (if syscall_id = 0 then (vm, false)
    else if syscall_id = 1 then ({ vm with out := vm.out ++ [getR vm 10 % 256] }, true)
    else (vm, false))
  else if OPCODE inst = 0x0F then
    -- FENCE (src/src/r5vm.c:254): no-op
    (vm, true)
  else
    -- unknown opcode (src/src/r5vm.c:257): r5vm_error to stderr, stop
    (vm, false)

/-- `r5vm_step` (src/src/r5vm.c:55): fetch, advance `pc`, decode/execute,
then enforce `R[0] = 0` (line 262). -/
def r5vm_step (vm : r5vm) : r5vm × Bool :=
  let inst := fetch32 vm
  let vm1 := { vm with pc := u32 (vm.pc + 4) &&& vm.mem_mask }
  let r := r5vm_exec vm1 inst
  ({ r.1 with regs := r.1.regs.set 0 0 }, r.2)

/-- The body of the `r5vm_run` loop (src/src/r5vm.c:266), unrolled for a
given number of remaining iterations.  Returns the final state, the
value of the loop counter `i` when the loop exits, and whether the exit
was caused by `r5vm_step` returning `false` (as opposed to reaching the
iteration bound). -/
def r5vm_runAux (vm : r5vm) : Nat → r5vm × Nat × Bool
  | 0 => (vm, 0, false)
  | Nat.succ n =>
    let s := r5vm_step vm
    if s.2 then
      let r := r5vm_runAux s.1 n
      (r.1, r.2.1 + 1, r.2.2)
    else (s.1, 0, true)

/-- `r5vm_run` (src/src/r5vm.c:266) for a positive `max_steps`: the C
`for` loop runs at most `max_steps` iterations and returns `i`.  For
`max_steps == 0` the C loop is unbounded; that case is characterised via
`r5vm_run_guard` and `r5vm_runAux` (a run that stops within any finite
fuel is the value of the unbounded loop). -/
def r5vm_run (vm : r5vm) (max_steps : Nat) : r5vm × Nat :=
  ((r5vm_runAux vm max_steps).1, (r5vm_runAux vm max_steps).2.1)

/-- The loop guard of `r5vm_run` (src/src/r5vm.c:269):
`i < max_steps || max_steps == 0`. -/
def r5vm_run_guard (i max_steps : Nat) : Bool :=
  decide (i < max_steps) || decide (max_steps = 0)

/-- Iterate the state component of `r5vm_step` (used to phrase
properties of `r5vm_run` in terms of the states visited). -/
def stepIter (vm : r5vm) : Nat → r5vm
  | 0 => vm
  | Nat.succ n => stepIter (r5vm_step vm).1 n

/-!
The image loader (src/src/main.c).  File I/O is modelled by giving
`r5vm_load` the file's contents as a byte list: `fread` of `n` bytes at
offset `off` succeeds iff `off + n ≤ file.length` (an `fseek` to a
non-negative offset on a regular file succeeds), and `calloc` is
modelled as always succeeding.  `stderr`/`stdout` messages are ignored.
-/

/-- The four bytes of the `"r5vm"` magic (cf. `R5VM_MAGIC 0x6d763572`,
src/src/r5vm.h:84 — "r5vm" in little endian; the `R5VM_MAGIC_STR`
macro itself is referenced by src/src/main.c:156 but its definition is
not in the shipped sources). -/
def R5VM_MAGIC_STR : List Nat := [0x72, 0x35, 0x76, 0x6d]

/-- Modelled from the spec: the supported `.r5m` file version
(`R5VM_FILE_VERSION`, referenced at src/src/main.c:167 but not defined
in the shipped sources; the spec only requires that the header version
"must equal the implementation's supported version", so the concrete
value is irrelevant to the claims). -/
def R5VM_FILE_VERSION : Nat := 1

/-- `rd16le` (src/src/main.c:78), reading from the file image at `off`. -/
def rd16le (p : List Nat) (off : Nat) : Nat :=
  (p.getD off 0 % 256) ||| ((p.getD (off + 1) 0 % 256) <<< 8)

/-- `rd32le` (src/src/main.c:84), reading from the file image at `off`. -/
def rd32le (p : List Nat) (off : Nat) : Nat :=
  (p.getD off 0 % 256) ||| ((p.getD (off + 1) 0 % 256) <<< 8) |||
  ((p.getD (off + 2) 0 % 256) <<< 16) ||| ((p.getD (off + 3) 0 % 256) <<< 24)

/-- The doubling loop of `mem_size_power2` (src/src/main.c:100):
`pow2_mem = 2; while (pow2_mem < total_mem) pow2_mem *= 2;`.
The explicit fuel of 64 iterations is enough for every input on which
the C loop terminates (the `size_t` value doubles from 2). -/
def pow2_loop (total : Nat) : Nat → Nat → Nat
  | 0, p => p
  | Nat.succ f, p => if p < total then pow2_loop total f (p * 2) else p

/-- `mem_size_power2` (src/src/main.c:93): `max(fsize, override_mem)`
rounded up to a power of two by the doubling loop (which starts at 2),
truncated to `uint32_t` on return. -/
def mem_size_power2 (override_mem fsize : Nat) : Nat :=
  let total_mem := if fsize < override_mem then override_mem else fsize
  u32 (pow2_loop total_mem 64 2)

/-- Write a list of bytes into a sandbox byte list at consecutive
offsets (models `fread(&mem[dst], 1, n, f)`). -/
def writeBytes : List Nat → Nat → List Nat → List Nat
  | m, _, [] => m
  | m, a, b :: bs => writeBytes (m.set a b) (a + 1) bs

/-- The size of the packed `.r5m` header that `r5vm_load` reads: the
fields used by src/src/main.c:143-154 (magic 4, version 2, flags 2, and
nine 32-bit fields including `ram_size`) plus 24 reserved bytes. -/
def r5vm_header_size : Nat := 68

/-- The sandbox contents `r5vm_load` builds (src/src/main.c:177-225):
a zeroed buffer of `mem_size` bytes (`calloc`), the `.code` blob of
`code_size` bytes read from file offset `code_offset` into
`mem[load_addr..]`, and, when `data_size > 0`, the `.data` blob read
from `data_offset` into `mem[load_addr + code_size..]`. -/
def r5vm_load_mem (file : List Nat) (mem_size : Nat) : List Nat :=
  let mem1 := writeBytes (List.replicate mem_size 0) (rd32le file 12)
    ((file.drop (rd32le file 20)).take (rd32le file 24))
  if rd32le file 32 > 0 then
    writeBytes mem1 (rd32le file 12 + rd32le file 24)
      ((file.drop (rd32le file 28)).take (rd32le file 32))
  else mem1

/-- The `VM` struct initialization of `r5vm_load` (src/src/main.c:229-241):
field offsets 8/12/16/20/24/28/32/36 of the little-endian header are
`entry`, `load_addr`, `ram_size`, `code_offset`, `code_size`,
`data_offset`, `data_size`, `bss_size`. -/
def r5vm_load_vm (file : List Nat) (req : Nat) : r5vm :=
  { regs := List.replicate 32 0
    pc := 0
    mem := r5vm_load_mem file (mem_size_power2 req (rd32le file 16))
    mem_size := mem_size_power2 req (rd32le file 16)
    mem_mask := mem_size_power2 req (rd32le file 16) - 1
    code_offset := rd32le file 12
    code_size := rd32le file 24
    data_offset := u32 (rd32le file 12 + rd32le file 24)
    data_size := rd32le file 32
    bss_offset := u32 (u32 (rd32le file 12 + rd32le file 24) + rd32le file 32)
    bss_size := rd32le file 36
    entry := rd32le file 8 &&& (mem_size_power2 req (rd32le file 16) - 1)
    out := [] }

/-- `r5vm_load` (src/src/main.c:128).  Returns `Except.error code`
(negative) exactly on the C error paths, in source order: header read
fails (-2), bad magic (-3), 64-bit flag (-4), version mismatch (-4),
image does not fit below `ram_size` (-6), `.code` read fails (-7),
`.data` read fails (-7); `calloc` is modelled as always succeeding.
On success the fully initialized VM (passed through `r5vm_reset`,
src/src/main.c:242) is returned. -/
def r5vm_load (file : List Nat) (mem_size_requested : Nat) : Except Int r5vm :=
  if file.length < r5vm_header_size then .error (-2)
  else if file.take 4 ≠ R5VM_MAGIC_STR then .error (-3)
  else if rd16le file 6 &&& 1 ≠ 0 then .error (-4)
  else if rd16le file 4 ≠ R5VM_FILE_VERSION then .error (-4)
  else if rd32le file 12 + (rd32le file 24 + rd32le file 32 + rd32le file 36) >
      rd32le file 16 then .error (-6)
  else if file.length < rd32le file 20 + rd32le file 24 then .error (-7)
  else if rd32le file 32 > 0 ∧ file.length < rd32le file 28 + rd32le file 32 then .error (-7)
  else .ok (r5vm_reset (r5vm_load_vm file mem_size_requested))

/-!
The x86-32 template JIT (src/src/r5jit_x86.c).  Host pointers cannot
exist in a shallow embedding, so the four host addresses that appear
inside emitted bytes are abstract `Nat` parameters carried in the
buffer record: `mem_addr` (the RWX buffer `jit->mem`), `ip_base` (the
`instruction_pointers` array), `vm_addr` (`&vm`) and `handler_addr`
(`&r5vm_handle_ecall`).  The dispatch table `instruction_pointers` is a
map from RV32I byte address to the stored host address
(`none` = never written, i.e. uninitialized `malloc` memory).
Register/state offsets within `r5vm_t` on x86-32: `regs` at 0 (so
`OFF_X(n) = 4n`), `pc` at 128, `mem` at 132, `mem_mask` at 140; these
appear only inside emitted byte streams.
-/

/-- `OFF_X(n)` (src/src/r5jit_x86.c:49): byte offset of register `n`
inside `r5vm_t` (the register file is the first member). -/
def OFF_X (n : Nat) : Nat := n * 4

/-- `OFF_MEM` (src/src/r5jit_x86.c:50): offset of the `mem` pointer. -/
def OFF_MEM : Nat := 132

/-- The `r5jitbuf_t` record (src/src/r5jit.h:46) plus the abstract host
addresses described above. -/
structure r5jitbuf where
  mem : List Nat
  mem_size : Nat
  pos : Nat
  instruction_pointers : Nat → Option Nat
  error : Bool
  mem_addr : Nat
  ip_base : Nat
  vm_addr : Nat
  handler_addr : Nat

/-- `emit1` (src/src/r5jit_x86.c:55): append one byte, or set the error
flag on overflow. -/
def emit1 (b : r5jitbuf) (v : Nat) : r5jitbuf :=
  if b.pos < b.mem_size then { b with mem := b.mem.set b.pos v, pos := b.pos + 1 }
  else { b with error := true }

/-- `emit4` (src/src/r5jit_x86.c:65): append a 32-bit value little-endian. -/
def emit4 (b : r5jitbuf) (v : Nat) : r5jitbuf :=
  emit1 (emit1 (emit1 (emit1 b ((v >>> 0) &&& 0xFF)) ((v >>> 8) &&& 0xFF)) ((v >>> 16) &&& 0xFF)) ((v >>> 24) &&& 0xFF)

/-- `emit` (src/src/r5jit_x86.c:86) with the hex string already decoded
to a byte list. -/
def emitL (b : r5jitbuf) (bytes : List Nat) : r5jitbuf :=
  bytes.foldl emit1 b

/-- `calc_rel32` (src/src/r5jit_x86.c:98): displacement from the byte
after the imm32 at the current cursor to `target`, as `uint32_t`. -/
def calc_rel32 (b : r5jitbuf) (target : Nat) : Nat :=
  sub32 target (u32 (b.mem_addr + b.pos + 4))

/-- `r5jit_emit_prolog` (src/src/r5jit_x86.c:113):
`push edi; push ebx; mov edi, vm`. -/
def r5jit_emit_prolog (b : r5jitbuf) : r5jitbuf :=
  emit4 (emit1 (emit1 (emit1 b 0x57) 0x53) 0xBF) (u32 b.vm_addr)

/-- `r5jit_emit_epilog` (src/src/r5jit_x86.c:119):
`pop ebx; pop edi; ret`. -/
def r5jit_emit_epilog (b : r5jitbuf) : r5jitbuf :=
  emit1 (emit1 (emit1 b 0x5B) 0x5F) 0xC3

/-- `emit_add` (src/src/r5jit_x86.c:132). -/
def emit_add (b : r5jitbuf) (rd reg1 reg2 : Nat) : r5jitbuf :=
  if rd = 0 then b else
  emit1 (emitL (emit1 (emitL (emit1 (emitL b [0x8B, 0x47]) (OFF_X reg1)) [0x03, 0x47]) (OFF_X reg2)) [0x89, 0x47]) (OFF_X rd)

/-- `emit_addi` (src/src/r5jit_x86.c:145); `imm` is the 32-bit two's
complement representation of the C `int` argument. -/
def emit_addi (b : r5jitbuf) (rd reg1 imm : Nat) : r5jitbuf :=
  if rd = 0 then b else
  let b := emit1 (emitL b [0x8B, 0x47]) (OFF_X reg1)
  let b := if imm ≠ 0 then emit4 (emit1 b 0x05) imm else b
  emit1 (emitL b [0x89, 0x47]) (OFF_X rd)

/-- `emit_xori` (src/src/r5jit_x86.c:160). -/
def emit_xori (b : r5jitbuf) (rd rs1 imm : Nat) : r5jitbuf :=
  if rd = 0 then b else
  emit1 (emitL (emit4 (emitL (emit1 (emitL b [0x8B, 0x47]) (OFF_X rs1)) [0x35]) imm) [0x89, 0x47]) (OFF_X rd)

/-- `emit_ori` (src/src/r5jit_x86.c:171). -/
def emit_ori (b : r5jitbuf) (rd rs1 imm : Nat) : r5jitbuf :=
  if rd = 0 then b else
  emit1 (emitL (emit4 (emitL (emit1 (emitL b [0x8B, 0x47]) (OFF_X rs1)) [0x0d]) imm) [0x89, 0x47]) (OFF_X rd)

/-- `emit_andi` (src/src/r5jit_x86.c:182). -/
def emit_andi (b : r5jitbuf) (rd rs1 imm : Nat) : r5jitbuf :=
  if rd = 0 then b else
  emit1 (emitL (emit4 (emitL (emit1 (emitL b [0x8B, 0x47]) (OFF_X rs1)) [0x25]) imm) [0x89, 0x47]) (OFF_X rd)

/-- `emit_slti` (src/src/r5jit_x86.c:193). -/
def emit_slti (b : r5jitbuf) (rd rs1 imm : Nat) : r5jitbuf :=
  if rd = 0 then b else
  emit1 (emitL (emitL (emitL (emit4 (emitL (emit1 (emitL b [0x8B, 0x47]) (OFF_X rs1)) [0x3d]) imm) [0x0F, 0x9C, 0xC0]) [0x0F, 0xB6, 0xC0]) [0x89, 0x47]) (OFF_X rd)

/-- `emit_sltiu` (src/src/r5jit_x86.c:206). -/
def emit_sltiu (b : r5jitbuf) (rd rs1 imm : Nat) : r5jitbuf :=
  if rd = 0 then b else
  emit1 (emitL (emitL (emitL (emit4 (emitL (emit1 (emitL b [0x8B, 0x47]) (OFF_X rs1)) [0x3D]) imm) [0x0F, 0x92, 0xC0]) [0x0F, 0xB6, 0xC0]) [0x89, 0x47]) (OFF_X rd)

/-- `emit_slli` (src/src/r5jit_x86.c:219). -/
def emit_slli (b : r5jitbuf) (rd rs1 imm : Nat) : r5jitbuf :=
  if rd = 0 then b else
  let b := emit1 (emitL b [0x8B, 0x47]) (OFF_X rs1)
  let b := if (imm &&& 0x1f) ≠ 0 then emit1 (emitL b [0xC1, 0xE0]) (imm &&& 0x1f) else b
  emit1 (emitL b [0x89, 0x47]) (OFF_X rd)

/-- `emit_srli` (src/src/r5jit_x86.c:232). -/
def emit_srli (b : r5jitbuf) (rd rs1 imm : Nat) : r5jitbuf :=
  if rd = 0 then b else
  let b := emit1 (emitL b [0x8B, 0x47]) (OFF_X rs1)
  let b := if (imm &&& 0x1f) ≠ 0 then emit1 (emitL b [0xC1, 0xE8]) (imm &&& 0x1f) else b
  emit1 (emitL b [0x89, 0x47]) (OFF_X rd)

/-- `emit_srai` (src/src/r5jit_x86.c:245). -/
def emit_srai (b : r5jitbuf) (rd rs1 imm : Nat) : r5jitbuf :=
  if rd = 0 then b else
  let b := emit1 (emitL b [0x8B, 0x47]) (OFF_X rs1)
  let b := if (imm &&& 0x1f) ≠ 0 then emit1 (emitL b [0xC1, 0xF8]) (imm &&& 0x1f) else b
  emit1 (emitL b [0x89, 0x47]) (OFF_X rd)

/-- `emit_sub` (src/src/r5jit_x86.c:258). -/
def emit_sub (b : r5jitbuf) (rs1 rs2 rd : Nat) : r5jitbuf :=
  if rd = 0 then b else
  emit1 (emitL (emit1 (emitL (emit1 (emitL b [0x8B, 0x47]) (OFF_X rs1)) [0x2B, 0x47]) (OFF_X rs2)) [0x89, 0x47]) (OFF_X rd)

/-- Shared tail of the six branch emitters: `cmp eax, ebx`, a 2-byte
conditional short jump over the next 6 bytes, then
`jmp [instruction_pointers + target_pc]` (an absolute-indirect jump
whose baked-in operand is `ip_base + 4*target_pc`, by C pointer
arithmetic on `unsigned*`). -/
def emit_branch_tail (b : r5jitbuf) (cc : Nat) (target_pc : Nat) : r5jitbuf :=
  emit4 (emitL (emitL (emitL b [0x39, 0xD8]) [cc, 0x06]) [0xFF, 0x25]) (u32 (b.ip_base + 4 * target_pc))

/-- Shared head of the six branch emitters: `eax = R[rs1]; ebx = R[rs2]`. -/
def emit_branch_head (b : r5jitbuf) (rs1 rs2 : Nat) : r5jitbuf :=
  emit1 (emitL (emit1 (emitL b [0x8b, 0x47]) (OFF_X rs1)) [0x8b, 0x5f]) (OFF_X rs2)

/-- `emit_beq` (src/src/r5jit_x86.c:271); `jne +6` = `75 06`. -/
def emit_beq (vm : r5vm) (b : r5jitbuf) (rs1 rs2 immb : Nat) : r5jitbuf :=
  let target_pc := u32 (sub32 vm.pc 4 + immb) &&& vm.mem_mask
  emit_branch_tail (emit_branch_head b rs1 rs2) 0x75 target_pc

/-- `emit_bne` (src/src/r5jit_x86.c:289); `je +6` = `74 06`. -/
def emit_bne (vm : r5vm) (b : r5jitbuf) (rs1 rs2 immb : Nat) : r5jitbuf :=
  let target_pc := u32 (sub32 vm.pc 4 + immb) &&& vm.mem_mask
  emit_branch_tail (emit_branch_head b rs1 rs2) 0x74 target_pc

/-- `emit_bltu` (src/src/r5jit_x86.c:302); `jae +6` = `73 06`. -/
def emit_bltu (vm : r5vm) (b : r5jitbuf) (rs1 rs2 immb : Nat) : r5jitbuf :=
  let target_pc := u32 (sub32 vm.pc 4 + immb) &&& vm.mem_mask
  emit_branch_tail (emit_branch_head b rs1 rs2) 0x73 target_pc

/-- `emit_bgeu` (src/src/r5jit_x86.c:315); `jb +6` = `72 06`. -/
def emit_bgeu (vm : r5vm) (b : r5jitbuf) (rs1 rs2 immb : Nat) : r5jitbuf :=
  let target_pc := u32 (sub32 vm.pc 4 + immb) &&& vm.mem_mask
  emit_branch_tail (emit_branch_head b rs1 rs2) 0x72 target_pc

/-- `emit_blt` (src/src/r5jit_x86.c:328); `jge +6` = `7D 06`. -/
def emit_blt (vm : r5vm) (b : r5jitbuf) (rs1 rs2 immb : Nat) : r5jitbuf :=
  let target_pc := u32 (sub32 vm.pc 4 + immb) &&& vm.mem_mask
  emit_branch_tail (emit_branch_head b rs1 rs2) 0x7D target_pc

/-- `emit_bge` (src/src/r5jit_x86.c:341); `jl +6` = `7C 06`. -/
def emit_bge (vm : r5vm) (b : r5jitbuf) (rs1 rs2 immb : Nat) : r5jitbuf :=
  let target_pc := u32 (sub32 vm.pc 4 + immb) &&& vm.mem_mask
  emit_branch_tail (emit_branch_head b rs1 rs2) 0x7C target_pc

/-- Shared head of the five load emitters: `eax = (R[rs1] + imm) & mem_mask;
ebx = vm->mem` (i.e. `8B 47 rs1 [05 imm32] 25 mask 8B 9F OFF_MEM`). -/
def emit_load_head (vm : r5vm) (b : r5jitbuf) (rs1 immb : Nat) : r5jitbuf :=
  let b := emit1 (emitL b [0x8B, 0x47]) (OFF_X rs1)
  let b := if immb ≠ 0 then emit4 (emitL b [0x05]) immb else b
  emit4 (emitL (emit4 (emitL b [0x25]) vm.mem_mask) [0x8B, 0x9F]) OFF_MEM

/-- `emit_lw` (src/src/r5jit_x86.c:355): a single 32-bit host load
`mov eax, [ebx + eax]` (no per-byte re-masking). -/
def emit_lw (vm : r5vm) (b : r5jitbuf) (rd rs1 immb : Nat) : r5jitbuf :=
  if rd = 0 then b else
  emit1 (emitL (emitL (emit_load_head vm b rs1 immb) [0x8B, 0x04, 0x03]) [0x89, 0x47]) (OFF_X rd)

/-- `emit_lh` (src/src/r5jit_x86.c:375): `mov ax, [ebx+eax]; cwde`. -/
def emit_lh (vm : r5vm) (b : r5jitbuf) (rd rs1 immb : Nat) : r5jitbuf :=
  if rd = 0 then b else
  emit1 (emitL (emitL (emitL (emit_load_head vm b rs1 immb) [0x66, 0x8b, 0x04, 0x03]) [0x98]) [0x89, 0x47]) (OFF_X rd)

/-- `emit_lb` (src/src/r5jit_x86.c:398): `mov al, [ebx+eax]; cbw; cwde`. -/
def emit_lb (vm : r5vm) (b : r5jitbuf) (rd rs1 immb : Nat) : r5jitbuf :=
  if rd = 0 then b else
  emit1 (emitL (emitL (emitL (emitL (emit_load_head vm b rs1 immb) [0x8a, 0x04, 0x03]) [0x66, 0x98]) [0x98]) [0x89, 0x47]) (OFF_X rd)

/-- `emit_lhu` (src/src/r5jit_x86.c:422): `mov ax, [ebx+eax]; and eax, 0xffff`. -/
def emit_lhu (vm : r5vm) (b : r5jitbuf) (rd rs1 immb : Nat) : r5jitbuf :=
  if rd = 0 then b else
  emit1 (emitL (emit4 (emitL (emitL (emit_load_head vm b rs1 immb) [0x66, 0x8b, 0x04, 0x03]) [0x25]) 0xffff) [0x89, 0x47]) (OFF_X rd)

/-- `emit_lbu` (src/src/r5jit_x86.c:445): `mov al, [ebx+eax]; and eax, 0xff`. -/
def emit_lbu (vm : r5vm) (b : r5jitbuf) (rd rs1 immb : Nat) : r5jitbuf :=
  if rd = 0 then b else
  emit1 (emitL (emit4 (emitL (emitL (emit_load_head vm b rs1 immb) [0x8a, 0x04, 0x03]) [0x25]) 0xff) [0x89, 0x47]) (OFF_X rd)

/-- `emit_auipc` (src/src/r5jit_x86.c:468): the PC-relative value is
folded and masked at compile time. -/
def emit_auipc (vm : r5vm) (b : r5jitbuf) (rd immu : Nat) : r5jitbuf :=
  if rd = 0 then b else
  let target_pc := u32 (sub32 vm.pc 4 + immu) &&& vm.mem_mask
  emit1 (emitL (emit4 (emitL b [0xB8]) target_pc) [0x89, 0x47]) (OFF_X rd)

/-- `emit_lui` (src/src/r5jit_x86.c:479). -/
def emit_lui (b : r5jitbuf) (rd immu : Nat) : r5jitbuf :=
  if rd = 0 then b else
  emit1 (emitL (emit4 (emitL b [0xb8]) immu) [0x89, 0x47]) (OFF_X rd)

/-- Shared head of the three store emitters:
`eax = ((R[rs1] + imm) & mem_mask) + vm->mem`. -/
def emit_store_head (vm : r5vm) (b : r5jitbuf) (rs1 imm_s : Nat) : r5jitbuf :=
  let b := emit1 (emitL b [0x8B, 0x47]) (OFF_X rs1)
  let b := if imm_s ≠ 0 then emit4 (emitL b [0x05]) imm_s else b
  emit4 (emitL (emit4 (emitL b [0x25]) vm.mem_mask) [0x03, 0x87]) OFF_MEM

/-- `emit_sw4` (src/src/r5jit_x86.c:489): one 32-bit host store. -/
def emit_sw4 (vm : r5vm) (b : r5jitbuf) (rs1 rs2 imm_s : Nat) : r5jitbuf :=
  emitL (emit1 (emitL (emit_store_head vm b rs1 imm_s) [0x8B, 0x5F]) (OFF_X rs2)) [0x89, 0x18]

/-- `emit_sw2` (src/src/r5jit_x86.c:501): one 16-bit host store. -/
def emit_sw2 (vm : r5vm) (b : r5jitbuf) (rs1 rs2 imm_s : Nat) : r5jitbuf :=
  emitL (emit1 (emitL (emit_store_head vm b rs1 imm_s) [0x66, 0x8b, 0x5f]) (OFF_X rs2)) [0x66, 0x89, 0x18]

/-- `emit_sw1` (src/src/r5jit_x86.c:513): one 8-bit host store. -/
def emit_sw1 (vm : r5vm) (b : r5jitbuf) (rs1 rs2 imm_s : Nat) : r5jitbuf :=
  emitL (emit1 (emitL (emit_store_head vm b rs1 imm_s) [0x8a, 0x5f]) (OFF_X rs2)) [0x88, 0x18]

/-- `emit_xor` (src/src/r5jit_x86.c:525). -/
def emit_xor (b : r5jitbuf) (rd rs1 rs2 : Nat) : r5jitbuf :=
  if rd = 0 then b else
  emit1 (emitL (emit1 (emitL (emit1 (emitL b [0x8B, 0x47]) (OFF_X rs1)) [0x33, 0x47]) (OFF_X rs2)) [0x89, 0x47]) (OFF_X rd)

/-- `emit_or` (src/src/r5jit_x86.c:535). -/
def emit_or (b : r5jitbuf) (rd rs1 rs2 : Nat) : r5jitbuf :=
  if rd = 0 then b else
  emit1 (emitL (emit1 (emitL (emit1 (emitL b [0x8B, 0x47]) (OFF_X rs1)) [0x0b, 0x47]) (OFF_X rs2)) [0x89, 0x47]) (OFF_X rd)

/-- `emit_and` (src/src/r5jit_x86.c:545). -/
def emit_and (b : r5jitbuf) (rd rs1 rs2 : Nat) : r5jitbuf :=
  if rd = 0 then b else
  emit1 (emitL (emit1 (emitL (emit1 (emitL b [0x8B, 0x47]) (OFF_X rs1)) [0x23, 0x47]) (OFF_X rs2)) [0x89, 0x47]) (OFF_X rd)

/-- `emit_sll` (src/src/r5jit_x86.c:555): `shl eax, cl` (the x86 shift
masks `cl` to 5 bits in 32-bit operand mode). -/
def emit_sll (b : r5jitbuf) (rd rs1 rs2 : Nat) : r5jitbuf :=
  if rd = 0 then b else
  emit1 (emitL (emitL (emit1 (emitL (emit1 (emitL b [0x8b, 0x4f]) (OFF_X rs2)) [0x8B, 0x47]) (OFF_X rs1)) [0xd3, 0xe0]) [0x89, 0x47]) (OFF_X rd)

/-- `emit_srl` (src/src/r5jit_x86.c:567). -/
def emit_srl (b : r5jitbuf) (rd rs1 rs2 : Nat) : r5jitbuf :=
  if rd = 0 then b else
  emit1 (emitL (emitL (emit1 (emitL (emit1 (emitL b [0x8b, 0x4f]) (OFF_X rs2)) [0x8b, 0x47]) (OFF_X rs1)) [0xd3, 0xe8]) [0x89, 0x47]) (OFF_X rd)

/-- `emit_sra` (src/src/r5jit_x86.c:578). -/
def emit_sra (b : r5jitbuf) (rd rs1 rs2 : Nat) : r5jitbuf :=
  if rd = 0 then b else
  emit1 (emitL (emitL (emit1 (emitL (emit1 (emitL b [0x8b, 0x4f]) (OFF_X rs2)) [0x8b, 0x47]) (OFF_X rs1)) [0xd3, 0xf8]) [0x89, 0x47]) (OFF_X rd)

/-- `emit_slt` (src/src/r5jit_x86.c:589). -/
def emit_slt (b : r5jitbuf) (rd rs1 rs2 : Nat) : r5jitbuf :=
  if rd = 0 then b else
  emit1 (emitL (emitL (emitL (emitL (emit1 (emitL (emit1 (emitL b [0x8B, 0x47]) (OFF_X rs1)) [0x8B, 0x5F]) (OFF_X rs2)) [0x39, 0xD8]) [0x0F, 0x9C, 0xC0]) [0x0F, 0xB6, 0xC0]) [0x89, 0x47]) (OFF_X rd)

/-- `emit_sltu` (src/src/r5jit_x86.c:600). -/
def emit_sltu (b : r5jitbuf) (rd rs1 rs2 : Nat) : r5jitbuf :=
  if rd = 0 then b else
  emit1 (emitL (emitL (emitL (emitL (emit1 (emitL (emit1 (emitL b [0x8B, 0x47]) (OFF_X rs1)) [0x8B, 0x5F]) (OFF_X rs2)) [0x39, 0xD8]) [0x0F, 0x92, 0xC0]) [0x0F, 0xB6, 0xC0]) [0x89, 0x47]) (OFF_X rd)

/-- `emit_jal` (src/src/r5jit_x86.c:612): optional link store
`mov [edi+OFF_X(rd)], vm->pc`, then an indirect jump through the
dispatch-table slot of the (compile-time folded, masked) target. -/
def emit_jal (vm : r5vm) (b : r5jitbuf) (rd imm_j : Nat) : r5jitbuf :=
  let target_pc := u32 (sub32 vm.pc 4 + imm_j) &&& vm.mem_mask
  let b := if rd ≠ 0 then emit4 (emit1 (emitL b [0xc7, 0x47]) (OFF_X rd)) vm.pc else b
  emit4 (emitL b [0xFF, 0x25]) (u32 (b.ip_base + 4 * target_pc))

/-- `emit_jalr` (src/src/r5jit_x86.c:628): optional link store, then
`eax = R[rs1] (+ imm); shl eax, 2; and eax, mem_mask & ~1;
add eax, instruction_pointers; jmp [eax]`. -/
def emit_jalr (vm : r5vm) (b : r5jitbuf) (rd rs1 imm_i : Nat) : r5jitbuf :=
  let b := if rd ≠ 0 then emit4 (emit1 (emitL b [0xc7, 0x47]) (OFF_X rd)) vm.pc else b
  let b := emit1 (emitL b [0x8b, 0x47]) (OFF_X rs1)
  let b := if imm_i ≠ 0 then emit4 (emitL b [0x05]) imm_i else b
  emitL (emit4 (emitL (emit4 (emitL (emitL b [0xc1, 0xe0, 0x02]) [0x25]) (vm.mem_mask &&& (U32 - 2))) [0x05]) (u32 b.ip_base)) [0xff, 0x20]

/-- `emit_ecall` (src/src/r5jit_x86.c:645): `push edi`, a relative
`call r5vm_handle_ecall`, then `add esp, 4`; execution falls through to
the next emitted instruction after the handler returns. -/
def emit_ecall (b : r5jitbuf) : r5jitbuf :=
  let b := emit1 b 0x57
  let b := emit1 b 0xE8
  let b := emit4 b (calc_rel32 b b.handler_addr)
  emit1 (emit1 (emit1 b 0x83) 0xC4) 4

/-- The R-type arm of `r5jit_step` (src/src/r5jit_x86.c:673-700),
release build: dispatch on funct3/funct7 to the matching emitter;
unknown funct3 emits nothing. -/
def r5jit_emit_rtype (jit : r5jitbuf) (inst rd rs1 rs2 : Nat) : r5jitbuf :=
  if FUNCT3 inst = 0x00 then
    (if FUNCT7 inst = 0x20 then emit_sub jit rd rs1 rs2 else emit_add jit rd rs1 rs2)
  else if FUNCT3 inst = 0x04 then emit_xor jit rd rs1 rs2
  else if FUNCT3 inst = 0x06 then emit_or jit rd rs1 rs2
  else if FUNCT3 inst = 0x07 then emit_and jit rd rs1 rs2
  else if FUNCT3 inst = 0x01 then emit_sll jit rd rs1 rs2
  else if FUNCT3 inst = 0x05 then
    (if FUNCT7 inst = 0x20 then emit_sra jit rd rs1 rs2 else emit_srl jit rd rs1 rs2)
  else if FUNCT3 inst = 0x02 then emit_slt jit rd rs1 rs2
  else if FUNCT3 inst = 0x03 then emit_sltu jit rd rs1 rs2
  else jit

/-- The I-type arm of `r5jit_step` (src/src/r5jit_x86.c:702-727). -/
def r5jit_emit_itype (jit : r5jitbuf) (inst rd rs1 : Nat) : r5jitbuf :=
  if FUNCT3 inst = 0x00 then emit_addi jit rd rs1 (IMM_I inst)
  else if FUNCT3 inst = 0x04 then emit_xori jit rd rs1 (IMM_I inst)
  else if FUNCT3 inst = 0x06 then emit_ori jit rd rs1 (IMM_I inst)
  else if FUNCT3 inst = 0x07 then emit_andi jit rd rs1 (IMM_I inst)
  else if FUNCT3 inst = 0x02 then emit_slti jit rd rs1 (IMM_I inst)
  else if FUNCT3 inst = 0x03 then emit_sltiu jit rd rs1 (IMM_I inst)
  else if FUNCT3 inst = 0x01 then
    (if FUNCT7 inst = 0x00 then emit_slli jit rd rs1 (IMM_I inst) else jit)
  else if FUNCT3 inst = 0x05 then
    (if FUNCT7 inst = 0x00 then emit_srli jit rd rs1 (IMM_I inst)
     else if FUNCT7 inst = 0x20 then emit_srai jit rd rs1 (IMM_I inst) else jit)
  else jit

/-- The load arm of `r5jit_step` (src/src/r5jit_x86.c:737-753). -/
def r5jit_emit_load (vm : r5vm) (jit : r5jitbuf) (inst rd rs1 : Nat) : r5jitbuf :=
  if FUNCT3 inst = 0x00 then emit_lb vm jit rd rs1 (IMM_I inst)
  else if FUNCT3 inst = 0x01 then emit_lh vm jit rd rs1 (IMM_I inst)
  else if FUNCT3 inst = 0x02 then emit_lw vm jit rd rs1 (IMM_I inst)
  else if FUNCT3 inst = 0x04 then emit_lbu vm jit rd rs1 (IMM_I inst)
  else if FUNCT3 inst = 0x05 then emit_lhu vm jit rd rs1 (IMM_I inst)
  else jit

/-- The store arm of `r5jit_step` (src/src/r5jit_x86.c:755-769). -/
def r5jit_emit_store (vm : r5vm) (jit : r5jitbuf) (inst rs1 rs2 : Nat) : r5jitbuf :=
  if FUNCT3 inst = 0x02 then emit_sw4 vm jit rs1 rs2 (IMM_S inst)
  else if FUNCT3 inst = 0x01 then emit_sw2 vm jit rs1 rs2 (IMM_S inst)
  else if FUNCT3 inst = 0x00 then emit_sw1 vm jit rs1 rs2 (IMM_S inst)
  else jit

/-- The branch arm of `r5jit_step` (src/src/r5jit_x86.c:771-786). -/
def r5jit_emit_branch (vm : r5vm) (jit : r5jitbuf) (inst rs1 rs2 : Nat) : r5jitbuf :=
  if FUNCT3 inst = 0x00 then emit_beq vm jit rs1 rs2 (IMM_B inst)
  else if FUNCT3 inst = 0x01 then emit_bne vm jit rs1 rs2 (IMM_B inst)
  else if FUNCT3 inst = 0x06 then emit_bltu vm jit rs1 rs2 (IMM_B inst)
  else if FUNCT3 inst = 0x07 then emit_bgeu vm jit rs1 rs2 (IMM_B inst)
  else if FUNCT3 inst = 0x04 then emit_blt vm jit rs1 rs2 (IMM_B inst)
  else if FUNCT3 inst = 0x05 then emit_bge vm jit rs1 rs2 (IMM_B inst)
  else jit

/-- The SYSTEM arm of `r5jit_step` (src/src/r5jit_x86.c:807-829).  The
error branches here are unconditional in the source (not under
`R5VM_DEBUG`): they set `jit->error` and stop the compile. -/
def r5jit_emit_system (jit : r5jitbuf) (inst : Nat) : r5jitbuf × Bool :=
  if FUNCT3 inst = 0 then
    (if (inst >>> 20) &&& 0xFFF = 0 then (emit_ecall jit, true)
    else if (inst >>> 20) &&& 0xFFF = 1 then (r5jit_emit_epilog jit, true)
    else ({ jit with error := true }, false))
  else ({ jit with error := true }, false)

/-- The opcode dispatch of `r5jit_step` (src/src/r5jit_x86.c:670-839),
release build, acting on the buffer; `vm` has its `pc` already advanced
past the instruction.  Unknown funct3/funct7 combinations inside the
known opcode families emit nothing and continue (the `#ifdef
R5VM_DEBUG` defaults are absent); the SYSTEM error arms and the
unknown-opcode default are unconditional: they set `jit->error` and
return `false`. -/
def r5jit_dispatch (vm : r5vm) (jit : r5jitbuf) (inst : Nat) : r5jitbuf × Bool :=
  let rd := (RD inst) &&& 0x7f
  let rs1 := (RS1 inst) &&& 0x7f
  let rs2 := (RS2 inst) &&& 0x7f
  if OPCODE inst = 0x33 then (r5jit_emit_rtype jit inst rd rs1 rs2, true)
  else if OPCODE inst = 0x13 then (r5jit_emit_itype jit inst rd rs1, true)
  else if OPCODE inst = 0x17 then (emit_auipc vm jit rd (IMM_U inst), true)
  else if OPCODE inst = 0x37 then (emit_lui jit rd (IMM_U inst), true)
  else if OPCODE inst = 0x03 then (r5jit_emit_load vm jit inst rd rs1, true)
  else if OPCODE inst = 0x23 then (r5jit_emit_store vm jit inst rs1 rs2, true)
  else if OPCODE inst = 0x63 then (r5jit_emit_branch vm jit inst rs1 rs2, true)
  else if OPCODE inst = 0x6F then (emit_jal vm jit rd (IMM_J inst), true)
  else if OPCODE inst = 0x67 then
    (if FUNCT3 inst = 0x00 then (emit_jalr vm jit rd rs1 (IMM_I inst), true)
     else (jit, true))
  else if OPCODE inst = 0x73 then r5jit_emit_system jit inst
  else if OPCODE inst = 0x0F then (emitL jit [0x90], true)
  else ({ jit with error := true }, false)

/-- `r5jit_step` (src/src/r5jit_x86.c:657), release build: fetch the
instruction at `vm->pc`, advance the pc, and dispatch to the matching
template emitter. -/
def r5jit_step_c (vm : r5vm) (jit : r5jitbuf) : r5vm × r5jitbuf × Bool :=
  let inst := fetch32 vm
  let vm1 := { vm with pc := u32 (vm.pc + 4) &&& vm.mem_mask }
  let r := r5jit_dispatch vm1 jit inst
  (vm1, r.1, r.2)

/-- The loop of `r5jit_compile` (src/src/r5jit_x86.c:859-879), unrolled
over the remaining iteration count.  Each iteration writes the
dispatch-table slot for `pc` with the current host cursor
(`&jit->mem[jit->pos]`, i.e. `mem_addr + pos`) *before* running the
emitting step; on a failed step the loop breaks with `jit->error` set. -/
def r5jit_compileN (vm : r5vm) (jit : r5jitbuf) (pc : Nat) : Nat → r5vm × r5jitbuf × Bool
  | 0 => (vm, jit, true)
  | Nat.succ n =>
    let jit := { jit with instruction_pointers :=
      fun q => if q = pc then some (u32 (jit.mem_addr + jit.pos)) else jit.instruction_pointers q }
    let vm := { vm with pc := pc }
    let r := r5jit_step_c vm jit
    if r.2.2 then r5jit_compileN r.1 r.2.1 (pc + 4) n
    else (r.1, { r.2.1 with error := true }, false)

/-- `r5jit_compile` (src/src/r5jit_x86.c:853): prolog, the emit loop
over the code region (`pc = code_offset; pc < code_offset + code_size;
pc += 4`, i.e. `⌈code_size/4⌉` iterations), then the safety epilog
(which is emitted on the failure path as well). -/
def r5jit_compile (vm : r5vm) (jit : r5jitbuf) : r5vm × r5jitbuf × Bool :=
  let jit := r5jit_emit_prolog jit
  let r := r5jit_compileN vm jit vm.code_offset ((vm.code_size + 3) / 4)
  (r.1, r5jit_emit_epilog r.2.1, r.2.2)

/-- Control transfer performed by one emitted template: fall through to
the next template, jump through a dispatch-table slot, return from the
emitted function, or behaviour the embedding does not model (a jump
through an uninitialized table slot, or a template that a successful
compile can never emit) — `stuck`. -/
inductive JitCtl where
  | fall : JitCtl
  | jump : Nat → JitCtl
  | ret : JitCtl
  | stuck : JitCtl
deriving Repr, DecidableEq

/-- A read-only view of the guest memory frozen at compile time, used to
decode which template was emitted for the RV32I address `p` (the
emitted code is fixed once `r5jit_compile` has run). -/
def fetchCode (code : List Nat) (mask p : Nat) : Nat :=
  (code.getD (u32 (p + 0) &&& mask) 0 % 256) |||
  ((code.getD (u32 (p + 1) &&& mask) 0 % 256) <<< 8) |||
  ((code.getD (u32 (p + 2) &&& mask) 0 % 256) <<< 16) |||
  ((code.getD (u32 (p + 3) &&& mask) 0 % 256) <<< 24)

/-- One step of the code emitted by `r5jit_step` for the instruction at
RV32I address `p`: the state transformation performed by the template's
x86 bytes (src/src/r5jit_x86.c:132-653).  `adv` is the value `vm->pc`
had when the template was emitted (`(p + 4) & mem_mask`), which the
templates bake into link values and PC-relative targets.  Differences
from the interpreter are deliberate and mirror the emitted code: AUIPC
masks its result; loads/stores perform one host access at
`(R[rs1]+imm) & mask` without per-byte re-masking (an access whose
bytes extend past the sandbox end reads/writes host memory outside it —
undefined behaviour in C, modelled by `getD`'s default and by `set`'s
out-of-range no-op); an ECALL calls `r5vm_handle_ecall`
(src/src/r5jit_x86.c:104), which writes a byte for `a7 == 1` and does
nothing otherwise, and always falls through; EBREAK is the epilog. -/
def r5jit_sem_step (code : List Nat) (vm : r5vm) (p : Nat) : r5vm × JitCtl :=
  let inst := fetchCode code vm.mem_mask p
  let adv := u32 (p + 4) &&& vm.mem_mask
  let rd := RD inst
  let rs1 := RS1 inst
  let rs2 := RS2 inst
  let wr := fun (v : Nat) => if rd = 0 then vm else setR vm rd v
  if OPCODE inst = 0x33 then
    (if FUNCT3 inst = 0x00 then
      (if FUNCT7 inst = 0x20 then wr (sub32 (getR vm rs1) (getR vm rs2))
       else wr (getR vm rs1 + getR vm rs2), .fall)
    else if FUNCT3 inst = 0x04 then (wr ((getR vm rs1) ^^^ (getR vm rs2)), .fall)
    else if FUNCT3 inst = 0x06 then (wr ((getR vm rs1) ||| (getR vm rs2)), .fall)
    else if FUNCT3 inst = 0x07 then (wr ((getR vm rs1) &&& (getR vm rs2)), .fall)
    else if FUNCT3 inst = 0x01 then (wr ((getR vm rs1) <<< ((getR vm rs2) &&& 0x1F)), .fall)
    else if FUNCT3 inst = 0x05 then
      (if FUNCT7 inst = 0x20 then
        wr (ofInt32 (Int.fdiv (toInt32 (getR vm rs1)) ((2 : Int) ^ ((getR vm rs2) &&& 0x1F))))
       else wr ((getR vm rs1) >>> ((getR vm rs2) &&& 0x1F)), .fall)
    else if FUNCT3 inst = 0x02 then
      (wr (if toInt32 (getR vm rs1) < toInt32 (getR vm rs2) then 1 else 0), .fall)
    else if FUNCT3 inst = 0x03 then
      (wr (if getR vm rs1 < getR vm rs2 then 1 else 0), .fall)
    else (vm, .fall))
  else if OPCODE inst = 0x13 then
    (if FUNCT3 inst = 0x00 then (wr (getR vm rs1 + IMM_I inst), .fall)
    else if FUNCT3 inst = 0x04 then (wr ((getR vm rs1) ^^^ (IMM_I inst)), .fall)
    else if FUNCT3 inst = 0x06 then (wr ((getR vm rs1) ||| (IMM_I inst)), .fall)
    else if FUNCT3 inst = 0x07 then (wr ((getR vm rs1) &&& (IMM_I inst)), .fall)
    else if FUNCT3 inst = 0x02 then
      (wr (if toInt32 (getR vm rs1) < toInt32 (IMM_I inst) then 1 else 0), .fall)
    else if FUNCT3 inst = 0x03 then
      (wr (if getR vm rs1 < IMM_I inst then 1 else 0), .fall)
    else if FUNCT3 inst = 0x01 then
      (if FUNCT7 inst = 0x00 then wr ((getR vm rs1) <<< ((IMM_I inst) &&& 0x1F)) else vm, .fall)
    else if FUNCT3 inst = 0x05 then
      (if FUNCT7 inst = 0x00 then wr ((getR vm rs1) >>> ((IMM_I inst) &&& 0x1F))
       else if FUNCT7 inst = 0x20 then
        wr (ofInt32 (Int.fdiv (toInt32 (getR vm rs1)) ((2 : Int) ^ ((IMM_I inst) &&& 0x1F))))
       else vm, .fall)
    else (vm, .fall))
  else if OPCODE inst = 0x17 then
    (wr (u32 (sub32 adv 4 + IMM_U inst) &&& vm.mem_mask), .fall)
  else if OPCODE inst = 0x37 then (wr (IMM_U inst), .fall)
  else if OPCODE inst = 0x03 then
    let addr := u32 (getR vm rs1 + IMM_I inst) &&& vm.mem_mask
    let b0 := vm.mem.getD (addr + 0) 0 % 256
    let b1 := vm.mem.getD (addr + 1) 0 % 256
    let b2 := vm.mem.getD (addr + 2) 0 % 256
    let b3 := vm.mem.getD (addr + 3) 0 % 256
    (if FUNCT3 inst = 0x00 then (wr (sx8 b0), .fall)
    else if FUNCT3 inst = 0x01 then (wr (sx16 (b0 ||| (b1 <<< 8))), .fall)
    else if FUNCT3 inst = 0x02 then
      (wr (b0 ||| (b1 <<< 8) ||| (b2 <<< 16) ||| (b3 <<< 24)), .fall)
    else if FUNCT3 inst = 0x04 then (wr b0, .fall)
    else if FUNCT3 inst = 0x05 then (wr (b0 ||| (b1 <<< 8)), .fall)
    else (vm, .fall))
  else if OPCODE inst = 0x23 then
    let addr := u32 (getR vm rs1 + IMM_S inst) &&& vm.mem_mask
    let v := getR vm rs2
    (if FUNCT3 inst = 0x02 then
      let vm := setMem8 vm (addr + 0) (v &&& 0xFF)
      let vm := setMem8 vm (addr + 1) ((v >>> 8) &&& 0xFF)
      let vm := setMem8 vm (addr + 2) ((v >>> 16) &&& 0xFF)
      (setMem8 vm (addr + 3) ((v >>> 24) &&& 0xFF), .fall)
    else if FUNCT3 inst = 0x01 then
      let vm := setMem8 vm (addr + 0) (v &&& 0xFF)
      (setMem8 vm (addr + 1) ((v >>> 8) &&& 0xFF), .fall)
    else if FUNCT3 inst = 0x00 then
      (setMem8 vm (addr + 0) (v &&& 0xFF), .fall)
    else (vm, .fall))
  else if OPCODE inst = 0x63 then
    let target := u32 (sub32 adv 4 + IMM_B inst) &&& vm.mem_mask
    (if FUNCT3 inst = 0x00 then
      (vm, if getR vm rs1 = getR vm rs2 then .jump target else .fall)
    else if FUNCT3 inst = 0x01 then
      (vm, if getR vm rs1 ≠ getR vm rs2 then .jump target else .fall)
    else if FUNCT3 inst = 0x06 then
      (vm, if getR vm rs1 < getR vm rs2 then .jump target else .fall)
    else if FUNCT3 inst = 0x07 then
      (vm, if getR vm rs1 ≥ getR vm rs2 then .jump target else .fall)
    else if FUNCT3 inst = 0x04 then
      (vm, if toInt32 (getR vm rs1) < toInt32 (getR vm rs2) then .jump target else .fall)
    else if FUNCT3 inst = 0x05 then
      (vm, if toInt32 (getR vm rs1) ≥ toInt32 (getR vm rs2) then .jump target else .fall)
    else (vm, .fall))
  else if OPCODE inst = 0x6F then
    let target := u32 (sub32 adv 4 + IMM_J inst) &&& vm.mem_mask
    (if rd = 0 then vm else setR vm rd adv, .jump target)
  else if OPCODE inst = 0x67 then
    (if FUNCT3 inst = 0x00 then
      let vm := if rd = 0 then vm else setR vm rd adv
      let idx := (u32 ((u32 (getR vm rs1 + IMM_I inst)) <<< 2)) &&& (vm.mem_mask &&& (U32 - 2))
      (vm, if idx % 4 = 0 then .jump (idx / 4) else .stuck)
    else (vm, .fall))
  else if OPCODE inst = 0x73 then
    (if FUNCT3 inst = 0 then
      (if (inst >>> 20) &&& 0xFFF = 0 then
        (if getR vm 17 = 1 then ({ vm with out := vm.out ++ [getR vm 10 % 256] }, .fall)
         else (vm, .fall))
      else if (inst >>> 20) &&& 0xFFF = 1 then (vm, .ret)
      else (vm, .stuck))
    else (vm, .stuck))
  else if OPCODE inst = 0x0F then (vm, .fall)
  else (vm, .stuck)

/-- Execution of the emitted function after a successful compile: start
at the template of `code_offset` (the prolog falls through into it),
follow `fall`/`jump` transfers, stop on `ret` (EBREAK) or on falling
off the end of the compiled region into the safety epilog.  A jump is
resolvable only through a dispatch-table slot that the compile loop
wrote (a 4-aligned address in `[code_offset, code_offset+code_size)`);
any other jump reads uninitialized memory — `none`. -/
def r5jit_runSem (code : List Nat) (co cs : Nat) : r5vm → Nat → Nat → Option r5vm
  | _, _, 0 => none
  | vm, p, Nat.succ fuel =>
    if co + cs ≤ p then some vm
    else
      let r := r5jit_sem_step code vm p
      match r.2 with
      | .fall => r5jit_runSem code co cs r.1 (p + 4) fuel
      | .jump t =>
        if co ≤ t ∧ t < co + cs ∧ (t - co) % 4 = 0 then r5jit_runSem code co cs r.1 t fuel
        else none
      | .ret => some r.1
      | .stuck => none

/-- A fresh `r5jitbuf_t` as `r5jit_x86` (src/src/r5jit_x86.c:885) sets
it up: an RWX buffer of `vm->mem_size` zeroed bytes, cursor 0, no
error, and a dispatch table none of whose slots has been written.  The
four host addresses are abstract parameters. -/
def mkJitbuf (vm : r5vm) (mem_addr ip_base vm_addr handler_addr : Nat) : r5jitbuf :=
  { mem := List.replicate vm.mem_size 0
    mem_size := vm.mem_size
    pos := 0
    instruction_pointers := fun _ => none
    error := false
    mem_addr := mem_addr
    ip_base := ip_base
    vm_addr := vm_addr
    handler_addr := handler_addr }

/-- `r5jit_x86` (src/src/r5jit_x86.c:885): compile, and only if
`r5jit_compile` returned `true` execute the emitted function (with the
given fuel; `none` if it does not finish within the fuel or the model
cannot follow it).  Returns the final VM state and the `success` flag.
On compile failure the state mutated by the compile walk is returned
unchanged — the emitted code is not run. -/
def r5jit_x86 (vm : r5vm) (mem_addr ip_base vm_addr handler_addr fuel : Nat) :
    Option (r5vm × Bool) :=
  let r := r5jit_compile vm (mkJitbuf vm mem_addr ip_base vm_addr handler_addr)
  if r.2.2 then
    (r5jit_runSem r.1.mem r.1.code_offset r.1.code_size r.1 r.1.code_offset fuel).map
      (fun v => (v, true))
  else some (r.1, false)

/-!
Concrete states and images used by the theorems below.
-/

/-- A little-endian 32-bit word as four bytes. -/
def w32 (v : Nat) : List Nat :=
  [v &&& 0xFF, (v >>> 8) &&& 0xFF, (v >>> 16) &&& 0xFF, (v >>> 24) &&& 0xFF]

/-- A VM whose sandbox holds `code` padded with zeros to `msize` bytes,
with the whole code region at offset 0, `entry = 0`, and a freshly
reset register file (the state `r5vm_load` would produce for the
corresponding image). -/
def mkVM (code : List Nat) (msize : Nat) : r5vm :=
  { regs := List.replicate 32 0
    pc := 0
    mem := code ++ List.replicate (msize - code.length) 0
    mem_size := msize
    mem_mask := msize - 1
    code_offset := 0
    code_size := code.length
    data_offset := code.length
    data_size := 0
    bss_offset := code.length
    bss_size := 0
    entry := 0
    out := [] }

/-- `ECALL; ADDI x1, x0, 5; EBREAK` — the three-instruction program
whose halting ECALL (`a7 = 0`) separates the two engines. -/
def codeEcallAddi : List Nat := w32 0x00000073 ++ w32 0x00500093 ++ w32 0x00100073

/-- The state of `codeEcallAddi` after loading: registers zero
(`a7 = 0`), `pc = entry = 0`, 16-byte sandbox. -/
def vmEcallAddi : r5vm := mkVM codeEcallAddi 16

/-- A 68-byte `.r5m` header: magic `"r5vm"`, the supported version,
flags 0, `entry 0`, `load_addr 0`, `ram_size 16`, `.code` of 12 bytes
at file offset 68, no `.data`, no `.bss`. -/
def hdrEcallAddi : List Nat :=
  [0x72, 0x35, 0x76, 0x6d] ++ [1, 0] ++ [0, 0] ++ w32 0 ++ w32 0 ++ w32 16 ++ w32 68 ++
  w32 12 ++ w32 0 ++ w32 0 ++ w32 0 ++ w32 0 ++ List.replicate 24 0

/-- A complete well-formed `.r5m` image of `codeEcallAddi`. -/
def imgEcallAddi : List Nat := hdrEcallAddi ++ codeEcallAddi

/-- A VM about to execute `EBREAK` (`0x00100073`) while `a7 = 1`. -/
def vmEbreakA7 : r5vm :=
  { mkVM (w32 0x00100073) 16 with regs := (List.replicate 32 0).set 17 1 }

/-- A VM whose single instruction word is 0 (an illegal opcode, on
which `r5jit_compile` fails), in the state produced by `r5vm_reset`:
all registers zero and `pc = entry = 0`. -/
def vmIllegal : r5vm := mkVM (w32 0x00000000) 16

/-- A VM with two legal instructions (`ADDI x1,x0,5; ADDI x2,x0,7`),
used to exercise the dispatch table and step counting. -/
def vmTwoAddi : r5vm := mkVM (w32 0x00500093 ++ w32 0x00700113) 16

/-- `ADDI x1, x0, 5; ECALL` — one continuing step, then a halting
ECALL (`a7 = 0`). -/
def vmAddiEcall : r5vm := mkVM (w32 0x00500093 ++ w32 0x00000073) 16

/-- A VM mid-way through `LW x10, 14(x0)` on a 16-byte sandbox with
marker bytes at offsets 14, 15 — the word load straddles
`mem_size - 1` and wraps to offsets 0 and 1. -/
def vmWrapLoad : r5vm :=
  let base := mkVM (w32 0x00E02503 ++ w32 0x00000073) 16
  { base with mem := (base.mem.set 14 0xAA).set 15 0xBB }

/-- A `r5jitbuf_t` that is two bytes long: emitting any template
overflows it, setting the error flag. -/
def jitTiny (vm : r5vm) : r5jitbuf :=
  { mkJitbuf vm 0 0 0 0 with mem := List.replicate 2 0, mem_size := 2 }

/-- The spec's sandbox-size formula exactly as the claim states it:
`max(ram_size, requested)` rounded up to the next power of two with a
minimum of 64 bytes (for comparison with `mem_size_power2`). -/
def claimC8_spec (requested ram_size : Nat) : Nat :=
  max 64 (2 ^ Nat.clog 2 (max ram_size requested))
/-! Helper lemmas. -/

theorem List.getD_set_zero (l : List Nat) : (l.set 0 0).getD 0 0 = 0 := by
  cases l <;> simp

/-- Claim C4: for every VM state with `regs[0] = 0` and every fetched
instruction word — including instructions that name `x0` as their
destination — one interpreter step (`r5vm_step`) re-establishes
`regs[0] = 0` at the instruction boundary (the unconditional
`R[0] = 0` at src/src/r5vm.c:262). -/
theorem claim_C4_x0_zero_after_step (vm : r5vm) (h0 : vm.regs.getD 0 0 = 0) :
    ((r5vm_step vm).1).regs.getD 0 0 = 0 := by
  simp only [r5vm_step]
  exact List.getD_set_zero _

/-- Witness for C4 at the concrete state `vmTwoAddi`. -/
theorem claim_C4_witness :
    vmTwoAddi.regs.getD 0 0 = 0 ∧ ((r5vm_step vmTwoAddi).1).regs.getD 0 0 = 0 :=
  ⟨by decide, claim_C4_x0_zero_after_step vmTwoAddi (by decide)⟩

/-- Claim C2 counterexample: the state `vmEbreakA7` is about to execute
`EBREAK` (`0x00100073`, opcode 0x73, funct3 0, imm12 1) with `a7 = 1`,
yet `r5vm_step` returns the continue indication — the interpreter does
not dispatch on funct3/imm12 at all, so an EBREAK does not terminate
execution when `a7 = 1`, contradicting the claim. -/
theorem claim_C2_counterexample :
    fetch32 vmEbreakA7 = 0x00100073 ∧ (r5vm_step vmEbreakA7).2 = true := by decide

/-- Claim C2 amended: when the interpreter executes an instruction with
opcode 0x73 (SYSTEM) it ignores funct3 and the 12-bit immediate and
dispatches solely on the value of register `a7` (src/src/r5vm.c:238):
`a7 = 0` stops execution, `a7 = 1` writes `a0 & 0xFF` to host stdout
and continues, and any other `a7` stops execution. -/
theorem claim_C2_amended (vm : r5vm) (h : OPCODE (fetch32 vm) = 0x73) :
    (getR vm 17 = 0 → (r5vm_step vm).2 = false) ∧
    (getR vm 17 = 1 → (r5vm_step vm).2 = true ∧
      ((r5vm_step vm).1).out = vm.out ++ [getR vm 10 % 256]) ∧
    (getR vm 17 ≠ 0 → getR vm 17 ≠ 1 → (r5vm_step vm).2 = false) := by
  have hg : ∀ (x : Nat) (i : Nat), getR { vm with pc := x } i = getR vm i := by
    intro x i; rfl
  simp only [r5vm_step, r5vm_exec, h]
  norm_num [hg]
  refine ⟨?_, ?_, ?_⟩
  · intro h0; simp [h0]
  · intro h1; simp [h1]
  · intro h0 h1; simp [h0, h1]

/-- Witness for the amended C2 at `vmEbreakA7` (`a7 = 1`). -/
theorem claim_C2_amended_witness :
    OPCODE (fetch32 vmEbreakA7) = 0x73 ∧
    ((r5vm_step vmEbreakA7).2 = true ∧
      ((r5vm_step vmEbreakA7).1).out = vmEbreakA7.out ++ [getR vmEbreakA7 10 % 256]) :=
  ⟨by decide, (claim_C2_amended vmEbreakA7 (by decide)).2.1 (by decide)⟩

/-- Claim C3 (the code at the failing input): on `vmEcallAddi`
(`ECALL; ADDI x1,x0,5; EBREAK` with all registers zero, so `a7 = 0`)
the interpreter's step returns the stop indication, but the code the
JIT emits for the ECALL merely calls `r5vm_handle_ecall`
(src/src/r5jit_x86.c:104), which does nothing for `a7 = 0`, and falls
through: the emitted program continues with the following `ADDI`
(leaving `x1 = 5`) and only returns at the `EBREAK`.  The claim that
ECALL with `a7 = 0` makes the emitted code return from the entry
function is contradicted. -/
theorem claim_C3_jit_ecall_no_halt :
    (r5vm_step vmEcallAddi).2 = false ∧
    (r5jit_x86 vmEcallAddi 0 0 0 0 100).map (fun r => (r.1.regs.getD 1 0, r.2)) =
      some (5, true) := by decide

/-- Claim C1 (the code at the failing input): loading the well-formed
image `imgEcallAddi` (`ECALL; ADDI x1,x0,5; EBREAK`) twice and running
one copy with the interpreter and the other through the JIT model both
terminate, but the final register files differ: the interpreter stops
at the halting ECALL with `x1 = 0`, while the emitted code runs past
the ECALL and finishes with `x1 = 5`.  This contradicts the claimed
bit-identical final register files. -/
theorem claim_C1_divergence :
    (r5vm_load imgEcallAddi 0).toOption.map
      (fun v => ((r5vm_runAux v 10).2.2, ((r5vm_runAux v 10).1).regs.getD 1 0)) =
      some (true, 0) ∧
    (r5vm_load imgEcallAddi 0).toOption.map
      (fun v => (r5jit_x86 v 0 0 0 0 100).map (fun r => (r.2, r.1.regs.getD 1 0))) =
      some (some (true, 5)) := by decide

set_option maxRecDepth 4096 in
/-- Claim C6 counterexample: `vmIllegal` is in the state just after
reset (`pc = entry = 0`, registers zero) and its single instruction
word 0 is illegal, so `r5jit_compile` fails and the emitted code is
not executed — but the returned VM has `pc = 4`, not `entry`: the
compile walk's pc mutation is not undone, so the VM is *not* left in
the state it had just after reset.  Moreover an emit-buffer overflow
(`jitTiny`, a 2-byte buffer) only sets `jit.error`; `r5jit_compile`
still returns `true`, contradicting the claim's premise that it
returns false on an emit-buffer error. -/
theorem claim_C6_counterexample :
    (r5jit_x86 vmIllegal 0 0 0 0 100).map (fun r => (r.2, r.1.pc)) = some (false, 4) ∧
    vmIllegal.entry = 0 ∧ vmIllegal.pc = 0 ∧
    (r5jit_compile vmTwoAddi (jitTiny vmTwoAddi)).2.1.error = true ∧
    (r5jit_compile vmTwoAddi (jitTiny vmTwoAddi)).2.2 = true := by decide

/-- Claim C8 counterexample: at `requested = 0`, `ram_size = 0` the
loader computes a sandbox size of 2 bytes (the doubling loop of
`mem_size_power2` starts at 2), not the 64-byte minimum the claim
states (`claimC8_spec`). -/
theorem claim_C8_counterexample :
    mem_size_power2 0 0 = 2 ∧ claimC8_spec 0 0 = 64 ∧
    mem_size_power2 0 0 ≠ claimC8_spec 0 0 := by
  have h1 : mem_size_power2 0 0 = 2 := by decide
  have h2 : claimC8_spec 0 0 = 64 := by
    norm_num [claimC8_spec, Nat.clog_zero_right]
  exact ⟨h1, h2, by rw [h1, h2]; decide⟩

theorem u32_eq_of_lt {x : Nat} (h : x < U32) : u32 x = x := Nat.mod_eq_of_lt h

theorem or_lt_u32 {x y : Nat} (hx : x < U32) (hy : y < U32) : x ||| y < U32 := by
  have h32 : U32 = 2 ^ 32 := by norm_num [U32]
  rw [h32] at hx hy ⊢
  exact Nat.or_lt_two_pow hx hy

theorem mem8_lt (vm : r5vm) (a : Nat) : mem8 vm a < 256 := Nat.mod_lt _ (by norm_num)

theorem byte_lt_u32 {b : Nat} (hb : b < 256) : b < U32 := by
  have : U32 = 4294967296 := rfl
  omega

theorem shl_byte_lt {b : Nat} (hb : b < 256) {k : Nat} (hk : k + 8 ≤ 32) : b <<< k < U32 := by
  have h1 : b <<< k = b * 2 ^ k := Nat.shiftLeft_eq b k
  have hp : (0 : Nat) < 2 ^ k := pow_pos (by norm_num) k
  have h2 : b * 2 ^ k < 2 ^ (k + 8) := by
    calc b * 2 ^ k < 256 * 2 ^ k := (Nat.mul_lt_mul_right hp).mpr hb
      _ = 2 ^ (k + 8) := by rw [pow_add]; ring
  have h3 : (2 : Nat) ^ (k + 8) ≤ 2 ^ 32 := Nat.pow_le_pow_right (by norm_num) hk
  have h4 : U32 = 2 ^ 32 := by norm_num [U32]
  omega

theorem sx8_lt {b : Nat} (hb : b < 256) : sx8 b < U32 := by
  have h : U32 = 4294967296 := rfl
  unfold sx8; split <;> omega

theorem sx16_lt {h : Nat} (hh : h < 65536) : sx16 h < U32 := by
  have hu : U32 = 4294967296 := rfl
  unfold sx16; split <;> omega

theorem getD_set_ne (l : List Nat) (i j v d : Nat) (h : i ≠ j) :
    (l.set i v).getD j d = l.getD j d := by
  simp [List.getD_eq_getElem?_getD, List.getElem?_set, h]

theorem getD_set_self (l : List Nat) (i v d : Nat) (h : i < l.length) :
    (l.set i v).getD i d = v := by
  simp [List.getD_eq_getElem?_getD, List.getElem?_set, h]

theorem RD_lt_32 (inst : Nat) : RD inst < 32 := by
  have := Nat.and_le_right (n := inst >>> 7) (m := 0x1F)
  unfold RD; omega

/-- Claim C5: for every interpreter load (opcode 0x03, any of
LB/LH/LW/LBU/LHU with `rd ≠ 0`), the effective address is
`a = R[rs1] + imm_i` (as `uint32_t`) and each constituent byte `k` is
read from `mem[(a + k) & mem_mask]` independently, so the destination
register receives the (sign- or zero-extended) little-endian
concatenation of the individually wrapped bytes; in particular a word
load whose bytes straddle `mem_size - 1` wraps to offset 0 (see the
witness on a 16-byte sandbox). -/
theorem claim_C5_load_bytewise_wrap (vm : r5vm) (inst : Nat) (hI : fetch32 vm = inst)
    (hlen : vm.regs.length = 32) (hop : OPCODE inst = 0x03) (hrd : RD inst ≠ 0) :
    (FUNCT3 inst = 0x00 →
      ((r5vm_step vm).1).regs.getD (RD inst) 0 =
        sx8 (mem8 vm (u32 (u32 (getR vm (RS1 inst) + IMM_I inst) + 0) &&& vm.mem_mask))) ∧
    (FUNCT3 inst = 0x01 →
      ((r5vm_step vm).1).regs.getD (RD inst) 0 =
        sx16 ((mem8 vm (u32 (u32 (getR vm (RS1 inst) + IMM_I inst) + 0) &&& vm.mem_mask)) |||
          ((mem8 vm (u32 (u32 (getR vm (RS1 inst) + IMM_I inst) + 1) &&& vm.mem_mask)) <<< 8))) ∧
    (FUNCT3 inst = 0x02 →
      ((r5vm_step vm).1).regs.getD (RD inst) 0 =
        (mem8 vm (u32 (u32 (getR vm (RS1 inst) + IMM_I inst) + 0) &&& vm.mem_mask)) |||
        ((mem8 vm (u32 (u32 (getR vm (RS1 inst) + IMM_I inst) + 1) &&& vm.mem_mask)) <<< 8) |||
        ((mem8 vm (u32 (u32 (getR vm (RS1 inst) + IMM_I inst) + 2) &&& vm.mem_mask)) <<< 16) |||
        ((mem8 vm (u32 (u32 (getR vm (RS1 inst) + IMM_I inst) + 3) &&& vm.mem_mask)) <<< 24)) ∧
    (FUNCT3 inst = 0x04 →
      ((r5vm_step vm).1).regs.getD (RD inst) 0 =
        mem8 vm (u32 (u32 (getR vm (RS1 inst) + IMM_I inst) + 0) &&& vm.mem_mask)) ∧
    (FUNCT3 inst = 0x05 →
      ((r5vm_step vm).1).regs.getD (RD inst) 0 =
        (mem8 vm (u32 (u32 (getR vm (RS1 inst) + IMM_I inst) + 0) &&& vm.mem_mask)) |||
        ((mem8 vm (u32 (u32 (getR vm (RS1 inst) + IMM_I inst) + 1) &&& vm.mem_mask)) <<< 8)) := by
  have hrdlt : RD inst < vm.regs.length := by rw [hlen]; exact RD_lt_32 inst
  have hb : ∀ a, mem8 vm a < 256 := mem8_lt vm
  have hfin : ∀ v : Nat, v < U32 →
      ((vm.regs.set (RD inst) (u32 v)).set 0 0).getD (RD inst) 0 = v := by
    intro v hv
    rw [getD_set_ne _ _ _ _ _ (fun h => hrd h.symm), getD_set_self _ _ _ _ hrdlt,
        u32_eq_of_lt hv]
  refine ⟨?_, ?_, ?_, ?_, ?_⟩ <;> intro hf
  · have hexec : r5vm_exec { vm with pc := u32 (vm.pc + 4) &&& vm.mem_mask } inst =
        (setR { vm with pc := u32 (vm.pc + 4) &&& vm.mem_mask } (RD inst)
          (sx8 (mem8 vm (u32 (u32 (getR vm (RS1 inst) + IMM_I inst) + 0) &&& vm.mem_mask))),
         true) := by
      simp only [r5vm_exec, hop, hf]; norm_num; rfl
    have hregs : ((r5vm_step vm).1).regs =
        (vm.regs.set (RD inst)
          (u32 (sx8 (mem8 vm (u32 (u32 (getR vm (RS1 inst) + IMM_I inst) + 0) &&& vm.mem_mask))))).set 0 0 := by
      show ((r5vm_exec { vm with pc := u32 (vm.pc + 4) &&& vm.mem_mask } (fetch32 vm)).1.regs.set 0 0) = _
      rw [hI, hexec]
      rfl
    rw [hregs]; exact hfin _ (sx8_lt (hb _))
  · have hexec : r5vm_exec { vm with pc := u32 (vm.pc + 4) &&& vm.mem_mask } inst =
        (setR { vm with pc := u32 (vm.pc + 4) &&& vm.mem_mask } (RD inst)
          (sx16 ((mem8 vm (u32 (u32 (getR vm (RS1 inst) + IMM_I inst) + 0) &&& vm.mem_mask)) |||
            ((mem8 vm (u32 (u32 (getR vm (RS1 inst) + IMM_I inst) + 1) &&& vm.mem_mask)) <<< 8))),
         true) := by
      simp only [r5vm_exec, hop, hf]; norm_num; rfl
    have hregs : ((r5vm_step vm).1).regs =
        (vm.regs.set (RD inst)
          (u32 (sx16 ((mem8 vm (u32 (u32 (getR vm (RS1 inst) + IMM_I inst) + 0) &&& vm.mem_mask)) |||
            ((mem8 vm (u32 (u32 (getR vm (RS1 inst) + IMM_I inst) + 1) &&& vm.mem_mask)) <<< 8))))).set 0 0 := by
      show ((r5vm_exec { vm with pc := u32 (vm.pc + 4) &&& vm.mem_mask } (fetch32 vm)).1.regs.set 0 0) = _
      rw [hI, hexec]
      rfl
    rw [hregs]
    refine hfin _ (sx16_lt ?_)
    have h0 := hb (u32 (u32 (getR vm (RS1 inst) + IMM_I inst) + 0) &&& vm.mem_mask)
    have h1 := hb (u32 (u32 (getR vm (RS1 inst) + IMM_I inst) + 1) &&& vm.mem_mask)
    have hs : (mem8 vm (u32 (u32 (getR vm (RS1 inst) + IMM_I inst) + 1) &&& vm.mem_mask)) <<< 8 < 65536 := by
      rw [Nat.shiftLeft_eq]; omega
    have := Nat.or_lt_two_pow (n := 16) (x := mem8 vm (u32 (u32 (getR vm (RS1 inst) + IMM_I inst) + 0) &&& vm.mem_mask))
      (y := (mem8 vm (u32 (u32 (getR vm (RS1 inst) + IMM_I inst) + 1) &&& vm.mem_mask)) <<< 8)
      (by omega) (by omega)
    omega
  · have hexec : r5vm_exec { vm with pc := u32 (vm.pc + 4) &&& vm.mem_mask } inst =
        (setR { vm with pc := u32 (vm.pc + 4) &&& vm.mem_mask } (RD inst)
          ((mem8 vm (u32 (u32 (getR vm (RS1 inst) + IMM_I inst) + 0) &&& vm.mem_mask)) |||
            ((mem8 vm (u32 (u32 (getR vm (RS1 inst) + IMM_I inst) + 1) &&& vm.mem_mask)) <<< 8) |||
            ((mem8 vm (u32 (u32 (getR vm (RS1 inst) + IMM_I inst) + 2) &&& vm.mem_mask)) <<< 16) |||
            ((mem8 vm (u32 (u32 (getR vm (RS1 inst) + IMM_I inst) + 3) &&& vm.mem_mask)) <<< 24)),
         true) := by
      simp only [r5vm_exec, hop, hf]; norm_num; rfl
    have hregs : ((r5vm_step vm).1).regs =
        (vm.regs.set (RD inst)
          (u32 ((mem8 vm (u32 (u32 (getR vm (RS1 inst) + IMM_I inst) + 0) &&& vm.mem_mask)) |||
            ((mem8 vm (u32 (u32 (getR vm (RS1 inst) + IMM_I inst) + 1) &&& vm.mem_mask)) <<< 8) |||
            ((mem8 vm (u32 (u32 (getR vm (RS1 inst) + IMM_I inst) + 2) &&& vm.mem_mask)) <<< 16) |||
            ((mem8 vm (u32 (u32 (getR vm (RS1 inst) + IMM_I inst) + 3) &&& vm.mem_mask)) <<< 24)))).set 0 0 := by
      show ((r5vm_exec { vm with pc := u32 (vm.pc + 4) &&& vm.mem_mask } (fetch32 vm)).1.regs.set 0 0) = _
      rw [hI, hexec]
      rfl
    rw [hregs]
    refine hfin _ ?_
    exact or_lt_u32 (or_lt_u32 (or_lt_u32 (byte_lt_u32 (hb _)) (shl_byte_lt (hb _) (by norm_num)))
      (shl_byte_lt (hb _) (by norm_num))) (shl_byte_lt (hb _) (by norm_num))
  · have hexec : r5vm_exec { vm with pc := u32 (vm.pc + 4) &&& vm.mem_mask } inst =
        (setR { vm with pc := u32 (vm.pc + 4) &&& vm.mem_mask } (RD inst)
          (mem8 vm (u32 (u32 (getR vm (RS1 inst) + IMM_I inst) + 0) &&& vm.mem_mask)),
         true) := by
      simp only [r5vm_exec, hop, hf]; norm_num; rfl
    have hregs : ((r5vm_step vm).1).regs =
        (vm.regs.set (RD inst)
          (u32 (mem8 vm (u32 (u32 (getR vm (RS1 inst) + IMM_I inst) + 0) &&& vm.mem_mask)))).set 0 0 := by
      show ((r5vm_exec { vm with pc := u32 (vm.pc + 4) &&& vm.mem_mask } (fetch32 vm)).1.regs.set 0 0) = _
      rw [hI, hexec]
      rfl
    rw [hregs]; exact hfin _ (byte_lt_u32 (hb _))
  · have hexec : r5vm_exec { vm with pc := u32 (vm.pc + 4) &&& vm.mem_mask } inst =
        (setR { vm with pc := u32 (vm.pc + 4) &&& vm.mem_mask } (RD inst)
          ((mem8 vm (u32 (u32 (getR vm (RS1 inst) + IMM_I inst) + 0) &&& vm.mem_mask)) |||
            ((mem8 vm (u32 (u32 (getR vm (RS1 inst) + IMM_I inst) + 1) &&& vm.mem_mask)) <<< 8)),
         true) := by
      simp only [r5vm_exec, hop, hf]; norm_num; rfl
    have hregs : ((r5vm_step vm).1).regs =
        (vm.regs.set (RD inst)
          (u32 ((mem8 vm (u32 (u32 (getR vm (RS1 inst) + IMM_I inst) + 0) &&& vm.mem_mask)) |||
            ((mem8 vm (u32 (u32 (getR vm (RS1 inst) + IMM_I inst) + 1) &&& vm.mem_mask)) <<< 8)))).set 0 0 := by
      show ((r5vm_exec { vm with pc := u32 (vm.pc + 4) &&& vm.mem_mask } (fetch32 vm)).1.regs.set 0 0) = _
      rw [hI, hexec]
      rfl
    rw [hregs]
    exact hfin _ (or_lt_u32 (byte_lt_u32 (hb _)) (shl_byte_lt (hb _) (by norm_num)))

/-- Witness for C5: `LW x10, 14(x0)` on a 16-byte sandbox — the word
load straddles `mem_size - 1` and wraps to offset 0. -/
theorem claim_C5_witness :
    fetch32 vmWrapLoad = 0x00E02503 ∧
    ((r5vm_step vmWrapLoad).1).regs.getD (RD 0x00E02503) 0 =
      (mem8 vmWrapLoad (u32 (u32 (getR vmWrapLoad (RS1 0x00E02503) + IMM_I 0x00E02503) + 0) &&& vmWrapLoad.mem_mask)) |||
      ((mem8 vmWrapLoad (u32 (u32 (getR vmWrapLoad (RS1 0x00E02503) + IMM_I 0x00E02503) + 1) &&& vmWrapLoad.mem_mask)) <<< 8) |||
      ((mem8 vmWrapLoad (u32 (u32 (getR vmWrapLoad (RS1 0x00E02503) + IMM_I 0x00E02503) + 2) &&& vmWrapLoad.mem_mask)) <<< 16) |||
      ((mem8 vmWrapLoad (u32 (u32 (getR vmWrapLoad (RS1 0x00E02503) + IMM_I 0x00E02503) + 3) &&& vmWrapLoad.mem_mask)) <<< 24) :=
  ⟨by decide,
   (claim_C5_load_bytewise_wrap vmWrapLoad 0x00E02503 (by decide) (by decide) (by decide)
     (by decide)).2.2.1 (by decide)⟩

theorem stepIter_succ (vm : r5vm) (n : Nat) :
    stepIter vm (n + 1) = stepIter (r5vm_step vm).1 n := rfl

/-- Claim C10: when `r5vm_run vm max_steps` (with a positive bound)
stops because a step returned the stop indication, the returned count
`i` counts only the instructions after which execution continued: the
first `i` steps all returned continue, step `i` returned stop, and the
final state is the state *after* that stopping step — its register,
memory, and output side effects are applied but it is excluded from
the count.  With `max_steps = 0` the loop guard
`i < max_steps || max_steps == 0` is true for every `i`, so the loop
runs without a step bound. -/
theorem claim_C10_run_count (vm : r5vm) (ms : Nat)
    (hstop : (r5vm_runAux vm ms).2.2 = true) :
    (∀ j < (r5vm_run vm ms).2, (r5vm_step (stepIter vm j)).2 = true) ∧
    (r5vm_step (stepIter vm (r5vm_run vm ms).2)).2 = false ∧
    (r5vm_run vm ms).1 = (r5vm_step (stepIter vm (r5vm_run vm ms).2)).1 ∧
    (r5vm_run vm ms).2 < ms ∧
    (∀ i, r5vm_run_guard i 0 = true) := by
  have hguard : ∀ i, r5vm_run_guard i 0 = true := by
    intro i; simp [r5vm_run_guard]
  induction ms generalizing vm with
  | zero => simp [r5vm_runAux] at hstop
  | succ n ih =>
    by_cases hc : (r5vm_step vm).2
    · simp only [r5vm_runAux, hc, if_true] at hstop
      have ih' := ih (r5vm_step vm).1 hstop
      have hrun1 : (r5vm_run vm (n + 1)).1 = (r5vm_run (r5vm_step vm).1 n).1 := by
        simp only [r5vm_run, r5vm_runAux, hc, if_true]
      have hrun2 : (r5vm_run vm (n + 1)).2 = (r5vm_run (r5vm_step vm).1 n).2 + 1 := by
        simp only [r5vm_run, r5vm_runAux, hc, if_true]
      refine ⟨?_, ?_, ?_, ?_, hguard⟩
      · intro j hj
        rw [hrun2] at hj
        match j with
        | 0 => simpa [stepIter] using hc
        | Nat.succ j' =>
          rw [stepIter_succ]
          exact ih'.1 j' (by omega)
      · rw [hrun2, stepIter_succ]
        exact ih'.2.1
      · rw [hrun1, hrun2, stepIter_succ]
        exact ih'.2.2.1
      · rw [hrun2]
        have hlt := ih'.2.2.2.1
        omega
    · simp only [Bool.not_eq_true] at hc
      have hrun1 : (r5vm_run vm (n + 1)).1 = (r5vm_step vm).1 := by
        simp only [r5vm_run, r5vm_runAux, hc, Bool.false_eq_true, if_false]
      have hrun2 : (r5vm_run vm (n + 1)).2 = 0 := by
        simp only [r5vm_run, r5vm_runAux, hc, Bool.false_eq_true, if_false]
      refine ⟨?_, ?_, ?_, ?_, hguard⟩
      · intro j hj; rw [hrun2] at hj; omega
      · rw [hrun2]; simpa [stepIter] using hc
      · rw [hrun1, hrun2]; rfl
      · rw [hrun2]; omega

/-- Witness for C10 at `vmAddiEcall` (stops at the second step). -/
theorem claim_C10_witness :
    (r5vm_runAux vmAddiEcall 10).2.2 = true ∧
    (r5vm_step (stepIter vmAddiEcall (r5vm_run vmAddiEcall 10).2)).2 = false ∧
    (r5vm_run vmAddiEcall 10).1 = (r5vm_step (stepIter vmAddiEcall (r5vm_run vmAddiEcall 10).2)).1 ∧
    (r5vm_run vmAddiEcall 10).2 < 10 :=
  ⟨by decide, (claim_C10_run_count vmAddiEcall 10 (by decide)).2.1,
   (claim_C10_run_count vmAddiEcall 10 (by decide)).2.2.1,
   (claim_C10_run_count vmAddiEcall 10 (by decide)).2.2.2.1⟩


theorem emit1_keeps (b : r5jitbuf) (v : Nat) :
    (emit1 b v).instruction_pointers = b.instruction_pointers ∧
    (emit1 b v).mem_addr = b.mem_addr := by
  unfold emit1; split <;> exact ⟨rfl, rfl⟩

@[simp] theorem emit1_ip (b : r5jitbuf) (v : Nat) :
    (emit1 b v).instruction_pointers = b.instruction_pointers := (emit1_keeps b v).1

@[simp] theorem emit1_addr (b : r5jitbuf) (v : Nat) :
    (emit1 b v).mem_addr = b.mem_addr := (emit1_keeps b v).2

@[simp] theorem emit4_ip (b : r5jitbuf) (v : Nat) :
    (emit4 b v).instruction_pointers = b.instruction_pointers := by unfold emit4; simp

@[simp] theorem emit4_addr (b : r5jitbuf) (v : Nat) :
    (emit4 b v).mem_addr = b.mem_addr := by unfold emit4; simp

@[simp] theorem emitL_ip (l : List Nat) : ∀ b : r5jitbuf,
    (emitL b l).instruction_pointers = b.instruction_pointers := by
  induction l with
  | nil => intro b; rfl
  | cons x xs ih => intro b; unfold emitL at ih ⊢; simp [List.foldl_cons, ih]

@[simp] theorem emitL_addr (l : List Nat) : ∀ b : r5jitbuf,
    (emitL b l).mem_addr = b.mem_addr := by
  induction l with
  | nil => intro b; rfl
  | cons x xs ih => intro b; unfold emitL at ih ⊢; simp [List.foldl_cons, ih]
@[simp] theorem emit_add_ip (b : r5jitbuf) (rd r1 r2 : Nat) :
    (emit_add b rd r1 r2).instruction_pointers = b.instruction_pointers := by
  unfold emit_add; repeat' split
  all_goals simp

@[simp] theorem emit_add_addr (b : r5jitbuf) (rd r1 r2 : Nat) :
    (emit_add b rd r1 r2).mem_addr = b.mem_addr := by
  unfold emit_add; repeat' split
  all_goals simp

@[simp] theorem emit_addi_ip (b : r5jitbuf) (rd r1 imm : Nat) :
    (emit_addi b rd r1 imm).instruction_pointers = b.instruction_pointers := by
  unfold emit_addi; repeat' split
  all_goals simp

@[simp] theorem emit_addi_addr (b : r5jitbuf) (rd r1 imm : Nat) :
    (emit_addi b rd r1 imm).mem_addr = b.mem_addr := by
  unfold emit_addi; repeat' split
  all_goals simp

@[simp] theorem emit_xori_ip (b : r5jitbuf) (rd r1 imm : Nat) :
    (emit_xori b rd r1 imm).instruction_pointers = b.instruction_pointers := by
  unfold emit_xori; repeat' split
  all_goals simp

@[simp] theorem emit_xori_addr (b : r5jitbuf) (rd r1 imm : Nat) :
    (emit_xori b rd r1 imm).mem_addr = b.mem_addr := by
  unfold emit_xori; repeat' split
  all_goals simp

@[simp] theorem emit_ori_ip (b : r5jitbuf) (rd r1 imm : Nat) :
    (emit_ori b rd r1 imm).instruction_pointers = b.instruction_pointers := by
  unfold emit_ori; repeat' split
  all_goals simp

@[simp] theorem emit_ori_addr (b : r5jitbuf) (rd r1 imm : Nat) :
    (emit_ori b rd r1 imm).mem_addr = b.mem_addr := by
  unfold emit_ori; repeat' split
  all_goals simp

@[simp] theorem emit_andi_ip (b : r5jitbuf) (rd r1 imm : Nat) :
    (emit_andi b rd r1 imm).instruction_pointers = b.instruction_pointers := by
  unfold emit_andi; repeat' split
  all_goals simp

@[simp] theorem emit_andi_addr (b : r5jitbuf) (rd r1 imm : Nat) :
    (emit_andi b rd r1 imm).mem_addr = b.mem_addr := by
  unfold emit_andi; repeat' split
  all_goals simp

@[simp] theorem emit_slti_ip (b : r5jitbuf) (rd r1 imm : Nat) :
    (emit_slti b rd r1 imm).instruction_pointers = b.instruction_pointers := by
  unfold emit_slti; repeat' split
  all_goals simp

@[simp] theorem emit_slti_addr (b : r5jitbuf) (rd r1 imm : Nat) :
    (emit_slti b rd r1 imm).mem_addr = b.mem_addr := by
  unfold emit_slti; repeat' split
  all_goals simp

@[simp] theorem emit_sltiu_ip (b : r5jitbuf) (rd r1 imm : Nat) :
    (emit_sltiu b rd r1 imm).instruction_pointers = b.instruction_pointers := by
  unfold emit_sltiu; repeat' split
  all_goals simp

@[simp] theorem emit_sltiu_addr (b : r5jitbuf) (rd r1 imm : Nat) :
    (emit_sltiu b rd r1 imm).mem_addr = b.mem_addr := by
  unfold emit_sltiu; repeat' split
  all_goals simp

@[simp] theorem emit_slli_ip (b : r5jitbuf) (rd r1 imm : Nat) :
    (emit_slli b rd r1 imm).instruction_pointers = b.instruction_pointers := by
  unfold emit_slli; repeat' split
  all_goals simp

@[simp] theorem emit_slli_addr (b : r5jitbuf) (rd r1 imm : Nat) :
    (emit_slli b rd r1 imm).mem_addr = b.mem_addr := by
  unfold emit_slli; repeat' split
  all_goals simp

@[simp] theorem emit_srli_ip (b : r5jitbuf) (rd r1 imm : Nat) :
    (emit_srli b rd r1 imm).instruction_pointers = b.instruction_pointers := by
  unfold emit_srli; repeat' split
  all_goals simp

@[simp] theorem emit_srli_addr (b : r5jitbuf) (rd r1 imm : Nat) :
    (emit_srli b rd r1 imm).mem_addr = b.mem_addr := by
  unfold emit_srli; repeat' split
  all_goals simp

@[simp] theorem emit_srai_ip (b : r5jitbuf) (rd r1 imm : Nat) :
    (emit_srai b rd r1 imm).instruction_pointers = b.instruction_pointers := by
  unfold emit_srai; repeat' split
  all_goals simp

@[simp] theorem emit_srai_addr (b : r5jitbuf) (rd r1 imm : Nat) :
    (emit_srai b rd r1 imm).mem_addr = b.mem_addr := by
  unfold emit_srai; repeat' split
  all_goals simp

@[simp] theorem emit_sub_ip (b : r5jitbuf) (r1 r2 rd : Nat) :
    (emit_sub b r1 r2 rd).instruction_pointers = b.instruction_pointers := by
  unfold emit_sub; repeat' split
  all_goals simp

@[simp] theorem emit_sub_addr (b : r5jitbuf) (r1 r2 rd : Nat) :
    (emit_sub b r1 r2 rd).mem_addr = b.mem_addr := by
  unfold emit_sub; repeat' split
  all_goals simp

@[simp] theorem emit_branch_head_ip (b : r5jitbuf) (r1 r2 : Nat) :
    (emit_branch_head b r1 r2).instruction_pointers = b.instruction_pointers := by
  unfold emit_branch_head; repeat' split
  all_goals simp

@[simp] theorem emit_branch_head_addr (b : r5jitbuf) (r1 r2 : Nat) :
    (emit_branch_head b r1 r2).mem_addr = b.mem_addr := by
  unfold emit_branch_head; repeat' split
  all_goals simp

@[simp] theorem emit_branch_tail_ip (b : r5jitbuf) (cc t : Nat) :
    (emit_branch_tail b cc t).instruction_pointers = b.instruction_pointers := by
  unfold emit_branch_tail; repeat' split
  all_goals simp

@[simp] theorem emit_branch_tail_addr (b : r5jitbuf) (cc t : Nat) :
    (emit_branch_tail b cc t).mem_addr = b.mem_addr := by
  unfold emit_branch_tail; repeat' split
  all_goals simp

@[simp] theorem emit_beq_ip (vm : r5vm) (b : r5jitbuf) (r1 r2 im : Nat) :
    (emit_beq vm b r1 r2 im).instruction_pointers = b.instruction_pointers := by
  unfold emit_beq; repeat' split
  all_goals simp

@[simp] theorem emit_beq_addr (vm : r5vm) (b : r5jitbuf) (r1 r2 im : Nat) :
    (emit_beq vm b r1 r2 im).mem_addr = b.mem_addr := by
  unfold emit_beq; repeat' split
  all_goals simp

@[simp] theorem emit_bne_ip (vm : r5vm) (b : r5jitbuf) (r1 r2 im : Nat) :
    (emit_bne vm b r1 r2 im).instruction_pointers = b.instruction_pointers := by
  unfold emit_bne; repeat' split
  all_goals simp

@[simp] theorem emit_bne_addr (vm : r5vm) (b : r5jitbuf) (r1 r2 im : Nat) :
    (emit_bne vm b r1 r2 im).mem_addr = b.mem_addr := by
  unfold emit_bne; repeat' split
  all_goals simp

@[simp] theorem emit_bltu_ip (vm : r5vm) (b : r5jitbuf) (r1 r2 im : Nat) :
    (emit_bltu vm b r1 r2 im).instruction_pointers = b.instruction_pointers := by
  unfold emit_bltu; repeat' split
  all_goals simp

@[simp] theorem emit_bltu_addr (vm : r5vm) (b : r5jitbuf) (r1 r2 im : Nat) :
    (emit_bltu vm b r1 r2 im).mem_addr = b.mem_addr := by
  unfold emit_bltu; repeat' split
  all_goals simp

@[simp] theorem emit_bgeu_ip (vm : r5vm) (b : r5jitbuf) (r1 r2 im : Nat) :
    (emit_bgeu vm b r1 r2 im).instruction_pointers = b.instruction_pointers := by
  unfold emit_bgeu; repeat' split
  all_goals simp

@[simp] theorem emit_bgeu_addr (vm : r5vm) (b : r5jitbuf) (r1 r2 im : Nat) :
    (emit_bgeu vm b r1 r2 im).mem_addr = b.mem_addr := by
  unfold emit_bgeu; repeat' split
  all_goals simp

@[simp] theorem emit_blt_ip (vm : r5vm) (b : r5jitbuf) (r1 r2 im : Nat) :
    (emit_blt vm b r1 r2 im).instruction_pointers = b.instruction_pointers := by
  unfold emit_blt; repeat' split
  all_goals simp

@[simp] theorem emit_blt_addr (vm : r5vm) (b : r5jitbuf) (r1 r2 im : Nat) :
    (emit_blt vm b r1 r2 im).mem_addr = b.mem_addr := by
  unfold emit_blt; repeat' split
  all_goals simp

@[simp] theorem emit_bge_ip (vm : r5vm) (b : r5jitbuf) (r1 r2 im : Nat) :
    (emit_bge vm b r1 r2 im).instruction_pointers = b.instruction_pointers := by
  unfold emit_bge; repeat' split
  all_goals simp

@[simp] theorem emit_bge_addr (vm : r5vm) (b : r5jitbuf) (r1 r2 im : Nat) :
    (emit_bge vm b r1 r2 im).mem_addr = b.mem_addr := by
  unfold emit_bge; repeat' split
  all_goals simp

@[simp] theorem emit_load_head_ip (vm : r5vm) (b : r5jitbuf) (r1 im : Nat) :
    (emit_load_head vm b r1 im).instruction_pointers = b.instruction_pointers := by
  unfold emit_load_head; repeat' split
  all_goals simp

@[simp] theorem emit_load_head_addr (vm : r5vm) (b : r5jitbuf) (r1 im : Nat) :
    (emit_load_head vm b r1 im).mem_addr = b.mem_addr := by
  unfold emit_load_head; repeat' split
  all_goals simp

@[simp] theorem emit_lw_ip (vm : r5vm) (b : r5jitbuf) (rd r1 im : Nat) :
    (emit_lw vm b rd r1 im).instruction_pointers = b.instruction_pointers := by
  unfold emit_lw; repeat' split
  all_goals simp

@[simp] theorem emit_lw_addr (vm : r5vm) (b : r5jitbuf) (rd r1 im : Nat) :
    (emit_lw vm b rd r1 im).mem_addr = b.mem_addr := by
  unfold emit_lw; repeat' split
  all_goals simp

@[simp] theorem emit_lh_ip (vm : r5vm) (b : r5jitbuf) (rd r1 im : Nat) :
    (emit_lh vm b rd r1 im).instruction_pointers = b.instruction_pointers := by
  unfold emit_lh; repeat' split
  all_goals simp

@[simp] theorem emit_lh_addr (vm : r5vm) (b : r5jitbuf) (rd r1 im : Nat) :
    (emit_lh vm b rd r1 im).mem_addr = b.mem_addr := by
  unfold emit_lh; repeat' split
  all_goals simp

@[simp] theorem emit_lb_ip (vm : r5vm) (b : r5jitbuf) (rd r1 im : Nat) :
    (emit_lb vm b rd r1 im).instruction_pointers = b.instruction_pointers := by
  unfold emit_lb; repeat' split
  all_goals simp

@[simp] theorem emit_lb_addr (vm : r5vm) (b : r5jitbuf) (rd r1 im : Nat) :
    (emit_lb vm b rd r1 im).mem_addr = b.mem_addr := by
  unfold emit_lb; repeat' split
  all_goals simp

@[simp] theorem emit_lhu_ip (vm : r5vm) (b : r5jitbuf) (rd r1 im : Nat) :
    (emit_lhu vm b rd r1 im).instruction_pointers = b.instruction_pointers := by
  unfold emit_lhu; repeat' split
  all_goals simp

@[simp] theorem emit_lhu_addr (vm : r5vm) (b : r5jitbuf) (rd r1 im : Nat) :
    (emit_lhu vm b rd r1 im).mem_addr = b.mem_addr := by
  unfold emit_lhu; repeat' split
  all_goals simp

@[simp] theorem emit_lbu_ip (vm : r5vm) (b : r5jitbuf) (rd r1 im : Nat) :
    (emit_lbu vm b rd r1 im).instruction_pointers = b.instruction_pointers := by
  unfold emit_lbu; repeat' split
  all_goals simp

@[simp] theorem emit_lbu_addr (vm : r5vm) (b : r5jitbuf) (rd r1 im : Nat) :
    (emit_lbu vm b rd r1 im).mem_addr = b.mem_addr := by
  unfold emit_lbu; repeat' split
  all_goals simp

@[simp] theorem emit_auipc_ip (vm : r5vm) (b : r5jitbuf) (rd im : Nat) :
    (emit_auipc vm b rd im).instruction_pointers = b.instruction_pointers := by
  unfold emit_auipc; repeat' split
  all_goals simp

@[simp] theorem emit_auipc_addr (vm : r5vm) (b : r5jitbuf) (rd im : Nat) :
    (emit_auipc vm b rd im).mem_addr = b.mem_addr := by
  unfold emit_auipc; repeat' split
  all_goals simp

@[simp] theorem emit_lui_ip (b : r5jitbuf) (rd im : Nat) :
    (emit_lui b rd im).instruction_pointers = b.instruction_pointers := by
  unfold emit_lui; repeat' split
  all_goals simp

@[simp] theorem emit_lui_addr (b : r5jitbuf) (rd im : Nat) :
    (emit_lui b rd im).mem_addr = b.mem_addr := by
  unfold emit_lui; repeat' split
  all_goals simp

@[simp] theorem emit_store_head_ip (vm : r5vm) (b : r5jitbuf) (r1 im : Nat) :
    (emit_store_head vm b r1 im).instruction_pointers = b.instruction_pointers := by
  unfold emit_store_head; repeat' split
  all_goals simp

@[simp] theorem emit_store_head_addr (vm : r5vm) (b : r5jitbuf) (r1 im : Nat) :
    (emit_store_head vm b r1 im).mem_addr = b.mem_addr := by
  unfold emit_store_head; repeat' split
  all_goals simp

@[simp] theorem emit_sw4_ip (vm : r5vm) (b : r5jitbuf) (r1 r2 im : Nat) :
    (emit_sw4 vm b r1 r2 im).instruction_pointers = b.instruction_pointers := by
  unfold emit_sw4; repeat' split
  all_goals simp

@[simp] theorem emit_sw4_addr (vm : r5vm) (b : r5jitbuf) (r1 r2 im : Nat) :
    (emit_sw4 vm b r1 r2 im).mem_addr = b.mem_addr := by
  unfold emit_sw4; repeat' split
  all_goals simp

@[simp] theorem emit_sw2_ip (vm : r5vm) (b : r5jitbuf) (r1 r2 im : Nat) :
    (emit_sw2 vm b r1 r2 im).instruction_pointers = b.instruction_pointers := by
  unfold emit_sw2; repeat' split
  all_goals simp

@[simp] theorem emit_sw2_addr (vm : r5vm) (b : r5jitbuf) (r1 r2 im : Nat) :
    (emit_sw2 vm b r1 r2 im).mem_addr = b.mem_addr := by
  unfold emit_sw2; repeat' split
  all_goals simp

@[simp] theorem emit_sw1_ip (vm : r5vm) (b : r5jitbuf) (r1 r2 im : Nat) :
    (emit_sw1 vm b r1 r2 im).instruction_pointers = b.instruction_pointers := by
  unfold emit_sw1; repeat' split
  all_goals simp

@[simp] theorem emit_sw1_addr (vm : r5vm) (b : r5jitbuf) (r1 r2 im : Nat) :
    (emit_sw1 vm b r1 r2 im).mem_addr = b.mem_addr := by
  unfold emit_sw1; repeat' split
  all_goals simp

@[simp] theorem emit_xor_ip (b : r5jitbuf) (rd r1 r2 : Nat) :
    (emit_xor b rd r1 r2).instruction_pointers = b.instruction_pointers := by
  unfold emit_xor; repeat' split
  all_goals simp

@[simp] theorem emit_xor_addr (b : r5jitbuf) (rd r1 r2 : Nat) :
    (emit_xor b rd r1 r2).mem_addr = b.mem_addr := by
  unfold emit_xor; repeat' split
  all_goals simp

@[simp] theorem emit_or_ip (b : r5jitbuf) (rd r1 r2 : Nat) :
    (emit_or b rd r1 r2).instruction_pointers = b.instruction_pointers := by
  unfold emit_or; repeat' split
  all_goals simp

@[simp] theorem emit_or_addr (b : r5jitbuf) (rd r1 r2 : Nat) :
    (emit_or b rd r1 r2).mem_addr = b.mem_addr := by
  unfold emit_or; repeat' split
  all_goals simp

@[simp] theorem emit_and_ip (b : r5jitbuf) (rd r1 r2 : Nat) :
    (emit_and b rd r1 r2).instruction_pointers = b.instruction_pointers := by
  unfold emit_and; repeat' split
  all_goals simp

@[simp] theorem emit_and_addr (b : r5jitbuf) (rd r1 r2 : Nat) :
    (emit_and b rd r1 r2).mem_addr = b.mem_addr := by
  unfold emit_and; repeat' split
  all_goals simp

@[simp] theorem emit_sll_ip (b : r5jitbuf) (rd r1 r2 : Nat) :
    (emit_sll b rd r1 r2).instruction_pointers = b.instruction_pointers := by
  unfold emit_sll; repeat' split
  all_goals simp

@[simp] theorem emit_sll_addr (b : r5jitbuf) (rd r1 r2 : Nat) :
    (emit_sll b rd r1 r2).mem_addr = b.mem_addr := by
  unfold emit_sll; repeat' split
  all_goals simp

@[simp] theorem emit_srl_ip (b : r5jitbuf) (rd r1 r2 : Nat) :
    (emit_srl b rd r1 r2).instruction_pointers = b.instruction_pointers := by
  unfold emit_srl; repeat' split
  all_goals simp

@[simp] theorem emit_srl_addr (b : r5jitbuf) (rd r1 r2 : Nat) :
    (emit_srl b rd r1 r2).mem_addr = b.mem_addr := by
  unfold emit_srl; repeat' split
  all_goals simp

@[simp] theorem emit_sra_ip (b : r5jitbuf) (rd r1 r2 : Nat) :
    (emit_sra b rd r1 r2).instruction_pointers = b.instruction_pointers := by
  unfold emit_sra; repeat' split
  all_goals simp

@[simp] theorem emit_sra_addr (b : r5jitbuf) (rd r1 r2 : Nat) :
    (emit_sra b rd r1 r2).mem_addr = b.mem_addr := by
  unfold emit_sra; repeat' split
  all_goals simp

@[simp] theorem emit_slt_ip (b : r5jitbuf) (rd r1 r2 : Nat) :
    (emit_slt b rd r1 r2).instruction_pointers = b.instruction_pointers := by
  unfold emit_slt; repeat' split
  all_goals simp

@[simp] theorem emit_slt_addr (b : r5jitbuf) (rd r1 r2 : Nat) :
    (emit_slt b rd r1 r2).mem_addr = b.mem_addr := by
  unfold emit_slt; repeat' split
  all_goals simp

@[simp] theorem emit_sltu_ip (b : r5jitbuf) (rd r1 r2 : Nat) :
    (emit_sltu b rd r1 r2).instruction_pointers = b.instruction_pointers := by
  unfold emit_sltu; repeat' split
  all_goals simp

@[simp] theorem emit_sltu_addr (b : r5jitbuf) (rd r1 r2 : Nat) :
    (emit_sltu b rd r1 r2).mem_addr = b.mem_addr := by
  unfold emit_sltu; repeat' split
  all_goals simp

@[simp] theorem emit_jal_ip (vm : r5vm) (b : r5jitbuf) (rd im : Nat) :
    (emit_jal vm b rd im).instruction_pointers = b.instruction_pointers := by
  unfold emit_jal; repeat' split
  all_goals simp

@[simp] theorem emit_jal_addr (vm : r5vm) (b : r5jitbuf) (rd im : Nat) :
    (emit_jal vm b rd im).mem_addr = b.mem_addr := by
  unfold emit_jal; repeat' split
  all_goals simp

@[simp] theorem emit_jalr_ip (vm : r5vm) (b : r5jitbuf) (rd r1 im : Nat) :
    (emit_jalr vm b rd r1 im).instruction_pointers = b.instruction_pointers := by
  unfold emit_jalr; repeat' split
  all_goals simp

@[simp] theorem emit_jalr_addr (vm : r5vm) (b : r5jitbuf) (rd r1 im : Nat) :
    (emit_jalr vm b rd r1 im).mem_addr = b.mem_addr := by
  unfold emit_jalr; repeat' split
  all_goals simp

@[simp] theorem emit_ecall_ip (b : r5jitbuf) :
    (emit_ecall b).instruction_pointers = b.instruction_pointers := by
  unfold emit_ecall; repeat' split
  all_goals simp

@[simp] theorem emit_ecall_addr (b : r5jitbuf) :
    (emit_ecall b).mem_addr = b.mem_addr := by
  unfold emit_ecall; repeat' split
  all_goals simp

@[simp] theorem r5jit_emit_prolog_ip (b : r5jitbuf) :
    (r5jit_emit_prolog b).instruction_pointers = b.instruction_pointers := by
  unfold r5jit_emit_prolog; repeat' split
  all_goals simp

@[simp] theorem r5jit_emit_prolog_addr (b : r5jitbuf) :
    (r5jit_emit_prolog b).mem_addr = b.mem_addr := by
  unfold r5jit_emit_prolog; repeat' split
  all_goals simp

@[simp] theorem r5jit_emit_epilog_ip (b : r5jitbuf) :
    (r5jit_emit_epilog b).instruction_pointers = b.instruction_pointers := by
  unfold r5jit_emit_epilog; repeat' split
  all_goals simp

@[simp] theorem r5jit_emit_epilog_addr (b : r5jitbuf) :
    (r5jit_emit_epilog b).mem_addr = b.mem_addr := by
  unfold r5jit_emit_epilog; repeat' split
  all_goals simp

@[simp] theorem r5jit_emit_rtype_ip (b : r5jitbuf) (inst rd r1 r2 : Nat) :
    (r5jit_emit_rtype b inst rd r1 r2).instruction_pointers = b.instruction_pointers := by
  unfold r5jit_emit_rtype; repeat' split
  all_goals simp

@[simp] theorem r5jit_emit_rtype_addr (b : r5jitbuf) (inst rd r1 r2 : Nat) :
    (r5jit_emit_rtype b inst rd r1 r2).mem_addr = b.mem_addr := by
  unfold r5jit_emit_rtype; repeat' split
  all_goals simp

@[simp] theorem r5jit_emit_itype_ip (b : r5jitbuf) (inst rd r1 : Nat) :
    (r5jit_emit_itype b inst rd r1).instruction_pointers = b.instruction_pointers := by
  unfold r5jit_emit_itype; repeat' split
  all_goals simp

@[simp] theorem r5jit_emit_itype_addr (b : r5jitbuf) (inst rd r1 : Nat) :
    (r5jit_emit_itype b inst rd r1).mem_addr = b.mem_addr := by
  unfold r5jit_emit_itype; repeat' split
  all_goals simp

@[simp] theorem r5jit_emit_load_ip (vm : r5vm) (b : r5jitbuf) (inst rd r1 : Nat) :
    (r5jit_emit_load vm b inst rd r1).instruction_pointers = b.instruction_pointers := by
  unfold r5jit_emit_load; repeat' split
  all_goals simp

@[simp] theorem r5jit_emit_load_addr (vm : r5vm) (b : r5jitbuf) (inst rd r1 : Nat) :
    (r5jit_emit_load vm b inst rd r1).mem_addr = b.mem_addr := by
  unfold r5jit_emit_load; repeat' split
  all_goals simp

@[simp] theorem r5jit_emit_store_ip (vm : r5vm) (b : r5jitbuf) (inst r1 r2 : Nat) :
    (r5jit_emit_store vm b inst r1 r2).instruction_pointers = b.instruction_pointers := by
  unfold r5jit_emit_store; repeat' split
  all_goals simp

@[simp] theorem r5jit_emit_store_addr (vm : r5vm) (b : r5jitbuf) (inst r1 r2 : Nat) :
    (r5jit_emit_store vm b inst r1 r2).mem_addr = b.mem_addr := by
  unfold r5jit_emit_store; repeat' split
  all_goals simp

@[simp] theorem r5jit_emit_branch_ip (vm : r5vm) (b : r5jitbuf) (inst r1 r2 : Nat) :
    (r5jit_emit_branch vm b inst r1 r2).instruction_pointers = b.instruction_pointers := by
  unfold r5jit_emit_branch; repeat' split
  all_goals simp

@[simp] theorem r5jit_emit_branch_addr (vm : r5vm) (b : r5jitbuf) (inst r1 r2 : Nat) :
    (r5jit_emit_branch vm b inst r1 r2).mem_addr = b.mem_addr := by
  unfold r5jit_emit_branch; repeat' split
  all_goals simp

@[simp] theorem r5jit_emit_system_ip (b : r5jitbuf) (inst : Nat) :
    (r5jit_emit_system b inst).1.instruction_pointers = b.instruction_pointers := by
  unfold r5jit_emit_system; repeat' split
  all_goals simp

@[simp] theorem r5jit_emit_system_addr (b : r5jitbuf) (inst : Nat) :
    (r5jit_emit_system b inst).1.mem_addr = b.mem_addr := by
  unfold r5jit_emit_system; repeat' split
  all_goals simp

theorem r5jit_dispatch_ip (vm : r5vm) (b : r5jitbuf) (inst : Nat) :
    (r5jit_dispatch vm b inst).1.instruction_pointers = b.instruction_pointers := by
  unfold r5jit_dispatch
  simp only [apply_ite (fun p : r5jitbuf × Bool => p.1.instruction_pointers)]
  simp

theorem r5jit_dispatch_addr (vm : r5vm) (b : r5jitbuf) (inst : Nat) :
    (r5jit_dispatch vm b inst).1.mem_addr = b.mem_addr := by
  unfold r5jit_dispatch
  simp only [apply_ite (fun p : r5jitbuf × Bool => p.1.mem_addr)]
  simp

theorem r5jit_step_c_fst (vm : r5vm) (jit : r5jitbuf) :
    (r5jit_step_c vm jit).1 = { vm with pc := u32 (vm.pc + 4) &&& vm.mem_mask } := rfl

theorem r5jit_step_c_ip (vm : r5vm) (jit : r5jitbuf) :
    (r5jit_step_c vm jit).2.1.instruction_pointers = jit.instruction_pointers :=
  r5jit_dispatch_ip _ _ _

theorem r5jit_step_c_addr (vm : r5vm) (jit : r5jitbuf) :
    (r5jit_step_c vm jit).2.1.mem_addr = jit.mem_addr :=
  r5jit_dispatch_addr _ _ _

theorem r5jit_step_c_regs (vm : r5vm) (jit : r5jitbuf) :
    (r5jit_step_c vm jit).1.regs = vm.regs := rfl

theorem r5jit_step_c_mem (vm : r5vm) (jit : r5jitbuf) :
    (r5jit_step_c vm jit).1.mem = vm.mem := rfl

theorem r5jit_step_c_entry (vm : r5vm) (jit : r5jitbuf) :
    (r5jit_step_c vm jit).1.entry = vm.entry := rfl

theorem r5jit_compileN_keeps (n : Nat) : ∀ (vm : r5vm) (jit : r5jitbuf) (pc : Nat),
    (r5jit_compileN vm jit pc n).1.regs = vm.regs ∧
    (r5jit_compileN vm jit pc n).1.mem = vm.mem ∧
    (r5jit_compileN vm jit pc n).1.entry = vm.entry := by
  induction n with
  | zero => intro vm jit pc; exact ⟨rfl, rfl, rfl⟩
  | succ n ih =>
    intro vm jit pc
    simp only [r5jit_compileN]
    split
    · refine ⟨?_, ?_, ?_⟩
      · rw [(ih _ _ _).1, r5jit_step_c_regs]
      · rw [(ih _ _ _).2.1, r5jit_step_c_mem]
      · rw [(ih _ _ _).2.2, r5jit_step_c_entry]
    · exact ⟨rfl, rfl, rfl⟩

theorem emit1_error (b : r5jitbuf) (v : Nat) (h : b.error = true) :
    (emit1 b v).error = true := by
  unfold emit1; split <;> simpa

theorem r5jit_emit_epilog_error (b : r5jitbuf) (h : b.error = true) :
    (r5jit_emit_epilog b).error = true := by
  unfold r5jit_emit_epilog
  exact emit1_error _ _ (emit1_error _ _ (emit1_error _ _ h))

theorem r5jit_compileN_fail_error (n : Nat) : ∀ (vm : r5vm) (jit : r5jitbuf) (pc : Nat),
    (r5jit_compileN vm jit pc n).2.2 = false →
    (r5jit_compileN vm jit pc n).2.1.error = true := by
  induction n with
  | zero => intro vm jit pc h; simp [r5jit_compileN] at h
  | succ n ih =>
    intro vm jit pc
    simp only [r5jit_compileN]
    split
    · exact ih _ _ _
    · intro _; rfl

/-- Claim C6 amended: if `r5jit_compile` returns false (which happens
on an illegal instruction; an emit-buffer overflow only sets the error
flag without failing the compile — see the counterexample), then the
emitted code is never executed (`r5jit_x86` returns the compile-walk
state directly with success `false`), the general registers and the
sandbox still hold their values from before the compile (all registers
zero after reset), and the jit error flag is set; but `vm.pc` is left
where the compile walk stopped, not at `entry`. -/
theorem claim_C6_amended (vm : r5vm) (maddr ipb vaddr haddr fuel : Nat)
    (hfail : (r5jit_compile vm (mkJitbuf vm maddr ipb vaddr haddr)).2.2 = false) :
    r5jit_x86 vm maddr ipb vaddr haddr fuel =
      some ((r5jit_compile vm (mkJitbuf vm maddr ipb vaddr haddr)).1, false) ∧
    (r5jit_compile vm (mkJitbuf vm maddr ipb vaddr haddr)).1.regs = vm.regs ∧
    (r5jit_compile vm (mkJitbuf vm maddr ipb vaddr haddr)).1.mem = vm.mem ∧
    (r5jit_compile vm (mkJitbuf vm maddr ipb vaddr haddr)).1.entry = vm.entry ∧
    (r5jit_compile vm (mkJitbuf vm maddr ipb vaddr haddr)).2.1.error = true := by
  refine ⟨?_, ?_, ?_, ?_, ?_⟩
  · simp only [r5jit_x86, hfail, Bool.false_eq_true, if_false]
  · exact (r5jit_compileN_keeps _ _ _ _).1
  · exact (r5jit_compileN_keeps _ _ _ _).2.1
  · exact (r5jit_compileN_keeps _ _ _ _).2.2
  · have h : (r5jit_compileN vm (r5jit_emit_prolog (mkJitbuf vm maddr ipb vaddr haddr))
        vm.code_offset ((vm.code_size + 3) / 4)).2.2 = false := hfail
    exact r5jit_emit_epilog_error _ (r5jit_compileN_fail_error _ _ _ _ h)

/-- Witness for the amended C6 at `vmIllegal`. -/
theorem claim_C6_amended_witness :
    (r5jit_compile vmIllegal (mkJitbuf vmIllegal 0 0 0 0)).2.2 = false ∧
    (r5jit_x86 vmIllegal 0 0 0 0 100 =
      some ((r5jit_compile vmIllegal (mkJitbuf vmIllegal 0 0 0 0)).1, false) ∧
     (r5jit_compile vmIllegal (mkJitbuf vmIllegal 0 0 0 0)).1.regs = vmIllegal.regs ∧
     (r5jit_compile vmIllegal (mkJitbuf vmIllegal 0 0 0 0)).1.mem = vmIllegal.mem ∧
     (r5jit_compile vmIllegal (mkJitbuf vmIllegal 0 0 0 0)).1.entry = vmIllegal.entry ∧
     (r5jit_compile vmIllegal (mkJitbuf vmIllegal 0 0 0 0)).2.1.error = true) :=
  ⟨by decide, claim_C6_amended vmIllegal 0 0 0 0 100 (by decide)⟩

theorem r5jit_compileN_ip_frame (n : Nat) : ∀ (vm : r5vm) (jit : r5jitbuf) (pc q : Nat),
    (∀ j, j < n → q ≠ pc + 4 * j) →
    (r5jit_compileN vm jit pc n).2.1.instruction_pointers q = jit.instruction_pointers q := by
  induction n with
  | zero => intro vm jit pc q _; rfl
  | succ n ih =>
    intro vm jit pc q hq
    have hq0 : q ≠ pc := by simpa using hq 0 (Nat.succ_pos n)
    simp only [r5jit_compileN]
    split
    · rw [ih _ _ _ _ (fun j hj => by
        have := hq (j + 1) (by omega)
        omega)]
      rw [r5jit_step_c_ip]
      simp [hq0]
    · rw [show ∀ b : r5jitbuf, ({ b with error := true } : r5jitbuf).instruction_pointers
          = b.instruction_pointers from fun _ => rfl]
      rw [r5jit_step_c_ip]
      simp [hq0]

theorem r5jit_compileN_mem_addr (n : Nat) : ∀ (vm : r5vm) (jit : r5jitbuf) (pc : Nat),
    (r5jit_compileN vm jit pc n).2.1.mem_addr = jit.mem_addr := by
  induction n with
  | zero => intro vm jit pc; rfl
  | succ n ih =>
    intro vm jit pc
    simp only [r5jit_compileN]
    split
    · rw [ih]; rw [r5jit_step_c_addr]
    · rw [show ∀ b : r5jitbuf, ({ b with error := true } : r5jitbuf).mem_addr
          = b.mem_addr from fun _ => rfl]
      rw [r5jit_step_c_addr]

theorem r5jit_compileN_ip_slot (k : Nat) : ∀ (n : Nat) (vm : r5vm) (jit : r5jitbuf) (pc : Nat),
    k < n →
    (r5jit_compileN vm jit pc n).2.2 = true →
    (r5jit_compileN vm jit pc n).2.1.instruction_pointers (pc + 4 * k) =
      some (u32 (jit.mem_addr + (r5jit_compileN vm jit pc k).2.1.pos)) := by
  induction k with
  | zero =>
    intro n vm jit pc hn hs
    cases n with
    | zero => omega
    | succ m =>
      simp only [r5jit_compileN] at hs ⊢
      split at hs
      · next hb =>
        simp only [hb, if_true] at *
        rw [r5jit_compileN_ip_frame m _ _ _ _ (fun j _ => by omega)]
        rw [r5jit_step_c_ip]
        simp
      · simp at hs
  | succ k ihk =>
    intro n vm jit pc hn hs
    cases n with
    | zero => omega
    | succ m =>
      simp only [r5jit_compileN] at hs ⊢
      split at hs
      · next hb =>
        simp only [hb, if_true] at *
        have harith : pc + 4 * (k + 1) = (pc + 4) + 4 * k := by omega
        rw [harith]
        rw [ihk m _ _ _ (by omega) hs]
        rw [r5jit_step_c_addr]
      · simp at hs

/-- Claim C9: during JIT compilation, the dispatch-table slot for the
`k`-th RV32I address `code_offset + 4k` (for `4k < code_size`) is
written with the host emit cursor before that instruction's host bytes
are emitted; hence after a successful `r5jit_compile` the slot holds
`mem_addr +` the buffer position reached after compiling exactly the
first `k` instructions — the host address at which that instruction's
emitted code begins (emission only appends). -/
theorem claim_C9_dispatch_slots (vm : r5vm) (maddr ipb vaddr haddr k : Nat)
    (hk : 4 * k < vm.code_size)
    (hs : (r5jit_compile vm (mkJitbuf vm maddr ipb vaddr haddr)).2.2 = true) :
    (r5jit_compile vm (mkJitbuf vm maddr ipb vaddr haddr)).2.1.instruction_pointers
        (vm.code_offset + 4 * k) =
      some (u32 (maddr +
        (r5jit_compileN vm (r5jit_emit_prolog (mkJitbuf vm maddr ipb vaddr haddr))
          vm.code_offset k).2.1.pos)) := by
  have hkn : k < (vm.code_size + 3) / 4 := by omega
  have hs' : (r5jit_compileN vm (r5jit_emit_prolog (mkJitbuf vm maddr ipb vaddr haddr))
      vm.code_offset ((vm.code_size + 3) / 4)).2.2 = true := hs
  have h := r5jit_compileN_ip_slot k ((vm.code_size + 3) / 4) vm
    (r5jit_emit_prolog (mkJitbuf vm maddr ipb vaddr haddr)) vm.code_offset hkn hs'
  have hpro : (r5jit_emit_prolog (mkJitbuf vm maddr ipb vaddr haddr)).mem_addr = maddr := by
    simp [mkJitbuf]
  rw [hpro] at h
  calc (r5jit_compile vm (mkJitbuf vm maddr ipb vaddr haddr)).2.1.instruction_pointers
        (vm.code_offset + 4 * k)
      = (r5jit_compileN vm (r5jit_emit_prolog (mkJitbuf vm maddr ipb vaddr haddr))
          vm.code_offset ((vm.code_size + 3) / 4)).2.1.instruction_pointers
          (vm.code_offset + 4 * k) := by
        show (r5jit_emit_epilog _).instruction_pointers _ = _
        simp
    _ = _ := h

/-- Witness for C9: the second instruction (`k = 1`) of a two-ADDI
program; its slot holds the prolog size plus the first template's
length. -/
theorem claim_C9_witness :
    4 * 1 < (mkVM (w32 0x00500093 ++ w32 0x00700113) 64).code_size ∧
    (r5jit_compile (mkVM (w32 0x00500093 ++ w32 0x00700113) 64)
        (mkJitbuf (mkVM (w32 0x00500093 ++ w32 0x00700113) 64) 0 0 0 0)).2.1.instruction_pointers
        ((mkVM (w32 0x00500093 ++ w32 0x00700113) 64).code_offset + 4 * 1) =
      some (u32 (0 +
        (r5jit_compileN (mkVM (w32 0x00500093 ++ w32 0x00700113) 64)
          (r5jit_emit_prolog (mkJitbuf (mkVM (w32 0x00500093 ++ w32 0x00700113) 64) 0 0 0 0))
          (mkVM (w32 0x00500093 ++ w32 0x00700113) 64).code_offset 1).2.1.pos)) :=
  ⟨by decide, claim_C9_dispatch_slots (mkVM (w32 0x00500093 ++ w32 0x00700113) 64) 0 0 0 0 1
    (by decide) (by decide)⟩

theorem pow2_loop_spec (f : Nat) : ∀ p t, 0 < p → t ≤ p * 2 ^ f →
    (∃ k, pow2_loop t f p = p * 2 ^ k) ∧ t ≤ pow2_loop t f p ∧ p ≤ pow2_loop t f p ∧
    (pow2_loop t f p ≠ p → pow2_loop t f p < 2 * t) := by
  induction f with
  | zero =>
    intro p t hp ht
    simp only [pow2_loop]
    exact ⟨⟨0, by simp⟩, by simpa using ht, Nat.le_refl p, fun h => absurd rfl h⟩
  | succ f ih =>
    intro p t hp ht
    simp only [pow2_loop]
    split
    · next hlt =>
      have ht' : t ≤ p * 2 * 2 ^ f := by
        calc t ≤ p * 2 ^ (f + 1) := ht
          _ = p * 2 * 2 ^ f := by ring
      obtain ⟨⟨k, hk⟩, h1, h2, h3⟩ := ih (p * 2) t (by omega) ht'
      refine ⟨⟨k + 1, by rw [hk]; ring⟩, h1, by omega, ?_⟩
      intro _
      by_cases hr : pow2_loop t f (p * 2) = p * 2
      · omega
      · exact h3 hr
    · next hge =>
      exact ⟨⟨0, by simp⟩, by omega, Nat.le_refl p, fun h => absurd rfl h⟩

/-- Claim C8 amended: for every requested sandbox size and image
`ram_size` (bounded by 2^31 so that the `uint32_t` return conversion
of `mem_size_power2` does not truncate), the final sandbox size is
`max(ram_size, requested)` rounded up to the next power of two with a
minimum of 2 bytes (not 64): it is a power of two, at least the
maximum and at least 2, and no smaller such value exists. -/
theorem claim_C8_amended (requested ram_size : Nat)
    (hbound : max ram_size requested ≤ 2 ^ 31) :
    (∃ j, mem_size_power2 requested ram_size = 2 ^ j) ∧
    max ram_size requested ≤ mem_size_power2 requested ram_size ∧
    2 ≤ mem_size_power2 requested ram_size ∧
    (∀ q, (∃ j, q = 2 ^ j) → max ram_size requested ≤ q → 2 ≤ q →
      mem_size_power2 requested ram_size ≤ q) := by
  have htot : (if ram_size < requested then requested else ram_size) = max ram_size requested := by
    split <;> omega
  have ht : max ram_size requested ≤ 2 * 2 ^ 64 := by
    have : (2 : Nat) ^ 31 ≤ 2 * 2 ^ 64 := by norm_num
    omega
  obtain ⟨⟨k, hk⟩, h1, h2, h3⟩ :=
    pow2_loop_spec 64 2 (max ram_size requested) (by norm_num) ht
  set r := pow2_loop (max ram_size requested) 64 2 with hr
  have hrlt : r < U32 := by
    have hU : U32 = 2 ^ 32 := by norm_num [U32]
    by_cases hne : r = 2
    · rw [hne, hU]; norm_num
    · have := h3 hne
      have : r < 2 * 2 ^ 31 := by omega
      rw [hU]; norm_num at this ⊢; omega
  have hm : mem_size_power2 requested ram_size = r := by
    simp only [mem_size_power2, htot, ← hr]
    exact Nat.mod_eq_of_lt hrlt
  refine ⟨⟨k + 1, by rw [hm, hk]; ring⟩, by omega, by omega, ?_⟩
  intro q ⟨j, hq⟩ hqt hq2
  rw [hm]
  by_cases hne : r = 2
  · omega
  · have hr2t := h3 hne
    have hrq : r < 2 * q := by omega
    rw [hk] at hrq ⊢
    rw [hq] at hrq ⊢
    have h2k : (2 : Nat) * 2 ^ k = 2 ^ (k + 1) := by ring
    have h2j : (2 : Nat) * 2 ^ j = 2 ^ (j + 1) := by ring
    rw [h2k] at hrq ⊢
    rw [h2j] at hrq
    have : k + 1 < j + 1 := by
      exact (Nat.pow_lt_pow_iff_right (by norm_num : 1 < 2)).mp hrq
    exact Nat.pow_le_pow_right (by norm_num) (by omega)

/-- Witness for the amended C8 at `requested = 100`, `ram_size = 0`
(the result is 128). -/
theorem claim_C8_amended_witness :
    max 0 100 ≤ 2 ^ 31 ∧
    (∃ j, mem_size_power2 100 0 = 2 ^ j) ∧
    max 0 100 ≤ mem_size_power2 100 0 ∧
    2 ≤ mem_size_power2 100 0 :=
  ⟨by norm_num,
   (claim_C8_amended 100 0 (by norm_num)).1,
   (claim_C8_amended 100 0 (by norm_num)).2.1,
   (claim_C8_amended 100 0 (by norm_num)).2.2.1⟩

theorem writeBytes_length : ∀ (bs : List Nat) (m : List Nat) (a : Nat),
    (writeBytes m a bs).length = m.length := by
  intro bs
  induction bs with
  | nil => intro m a; rfl
  | cons x xs ih => intro m a; simp [writeBytes, ih]

/-- Claim C7: `r5vm_load` returns a negative error code exactly when
the header read fails (file shorter than the header), the magic is not
`"r5vm"`, flags bit 0 is set, the version differs from the supported
file version, `load_addr + code_size + data_size + bss_size >
ram_size`, or reading the `.code`/`.data` blobs fails; in every
failure case no VM is produced (the `Except` carries only the code),
and on success the returned VM is fully initialized: zeroed registers,
`pc = entry`, the computed power-of-two sandbox with its mask, and the
section descriptors from the header. -/
theorem claim_C7_load_errors (file : List Nat) (req : Nat) :
    (∀ e, r5vm_load file req = .error e → e < 0) ∧
    ((∃ e, r5vm_load file req = .error e) ↔
      (file.length < r5vm_header_size ∨
       file.take 4 ≠ R5VM_MAGIC_STR ∨
       rd16le file 6 &&& 1 ≠ 0 ∨
       rd16le file 4 ≠ R5VM_FILE_VERSION ∨
       rd32le file 12 + (rd32le file 24 + rd32le file 32 + rd32le file 36) > rd32le file 16 ∨
       file.length < rd32le file 20 + rd32le file 24 ∨
       (rd32le file 32 > 0 ∧ file.length < rd32le file 28 + rd32le file 32))) ∧
    (∀ v, r5vm_load file req = .ok v →
      v.regs = List.replicate 32 0 ∧
      v.pc = v.entry ∧
      v.mem_size = mem_size_power2 req (rd32le file 16) ∧
      v.mem_mask = v.mem_size - 1 ∧
      v.code_offset = rd32le file 12 ∧
      v.code_size = rd32le file 24 ∧
      v.data_size = rd32le file 32 ∧
      v.bss_size = rd32le file 36 ∧
      v.entry = rd32le file 8 &&& v.mem_mask ∧
      v.mem.length = v.mem_size ∧
      v.out = []) := by
  unfold r5vm_load
  split_ifs with h1 h2 h3 h4 h5 h6 h7
  · exact ⟨fun e he => by simp at he; omega,
      ⟨fun _ => Or.inl h1, fun _ => ⟨-2, rfl⟩⟩,
      fun v hv => by simp at hv⟩
  · exact ⟨fun e he => by simp at he; omega,
      ⟨fun _ => Or.inr (Or.inl h2), fun _ => ⟨-3, rfl⟩⟩,
      fun v hv => by simp at hv⟩
  · exact ⟨fun e he => by simp at he; omega,
      ⟨fun _ => Or.inr (Or.inr (Or.inl h3)), fun _ => ⟨-4, rfl⟩⟩,
      fun v hv => by simp at hv⟩
  · exact ⟨fun e he => by simp at he; omega,
      ⟨fun _ => Or.inr (Or.inr (Or.inr (Or.inl h4))), fun _ => ⟨-4, rfl⟩⟩,
      fun v hv => by simp at hv⟩
  · exact ⟨fun e he => by simp at he; omega,
      ⟨fun _ => Or.inr (Or.inr (Or.inr (Or.inr (Or.inl h5)))), fun _ => ⟨-6, rfl⟩⟩,
      fun v hv => by simp at hv⟩
  · exact ⟨fun e he => by simp at he; omega,
      ⟨fun _ => Or.inr (Or.inr (Or.inr (Or.inr (Or.inr (Or.inl h6))))), fun _ => ⟨-7, rfl⟩⟩,
      fun v hv => by simp at hv⟩
  · exact ⟨fun e he => by simp at he; omega,
      ⟨fun _ => Or.inr (Or.inr (Or.inr (Or.inr (Or.inr (Or.inr h7))))), fun _ => ⟨-7, rfl⟩⟩,
      fun v hv => by simp at hv⟩
  · refine ⟨fun e he => by simp at he, ?_, ?_⟩
    · constructor
      · rintro ⟨e, he⟩; simp at he
      · rintro (h | h | h | h | h | h | h) <;> first
          | exact absurd h h1 | exact absurd h h2 | exact absurd h h3 | exact absurd h h4
          | exact absurd h h5 | exact absurd h h6 | exact absurd h h7
    · intro v hv
      have hv' : r5vm_reset (r5vm_load_vm file req) = v := by simpa using hv
      subst hv'
      refine ⟨rfl, rfl, rfl, rfl, rfl, rfl, rfl, rfl, rfl, ?_, rfl⟩
      show (r5vm_load_mem file (mem_size_power2 req (rd32le file 16))).length = _
      unfold r5vm_load_mem
      split <;> simp [writeBytes_length] <;> rfl
